import Mathlib

/-!
Verification of the Weaver encrypted-vault subsystem.

This file shallowly embeds the vault cipher (`services/cryptoService`), the
profile-card signing scheme, the security-question hashing, and the
session/vault lifecycle handlers of `App.tsx` into Lean, and proves the
spec's testable properties about them.

Platform primitives (Web Crypto AES-GCM, PBKDF2, SHA-256, ECDSA, base64,
`JSON.stringify`/`JSON.parse`, `TextEncoder`) are not repository code; they
are modelled as ideal versions of themselves: the KDF is collision-free, the
AEAD cipher is perfectly authenticated (decryption succeeds exactly on the
genuine ciphertext produced under the same key and iv), the signature scheme
is perfectly unforgeable, and serialization is an injective encoding with an
exact partial inverse.  Bytes are modelled as `Nat`.
-/

namespace Weaver

/-- A self-delimiting serialization codec: `enc` maps a value to a token
(byte) list, and `dec` reads one value off the front of a token list,
returning the value and the unread remainder.  `complete` states that
decoding inverts encoding exactly. -/
structure Codec (α : Type) where
  enc : α → List Nat
  dec : List Nat → Option (α × List Nat)
  complete : ∀ a rest, dec (enc a ++ rest) = some (a, rest)

/-- Codec for `Nat` tokens: a number is a single token. -/
def natC : Codec Nat where
  enc n := [n]
  dec l := match l with
    | [] => none
    | x :: rest => some (x, rest)
  complete := fun _ _ => rfl

/-- Codec for `Bool` (one tag token). -/
def boolC : Codec Bool where
  enc b := [if b then 1 else 0]
  dec l := match l with
    | [] => none
    | x :: rest => some (x = 1, rest)
  complete := fun a rest => by cases a <;> simp

/-- Derive a codec along an embedding-projection pair (`g` a partial
inverse of `f`). -/
def mapC (c : Codec α) (f : β → α) (g : α → Option β)
    (h1 : ∀ b, g (f b) = some b) : Codec β where
  enc b := c.enc (f b)
  dec l := match c.dec l with
    | none => none
    | some (a, rest) => match g a with
      | none => none
      | some b => some (b, rest)
  complete := fun b rest => by simp [c.complete (f b) rest, h1 b]

/-- Derive a codec along an isomorphism. -/
def isoC (c : Codec α) (f : β → α) (g : α → β)
    (h1 : ∀ b, g (f b) = b) : Codec β where
  enc b := c.enc (f b)
  dec l := match c.dec l with
    | none => none
    | some (a, rest) => some (g a, rest)
  complete := fun b rest => by simp [c.complete (f b) rest, h1 b]

/-- Codec for pairs: encode the components in sequence. -/
def prodC (c : Codec α) (d : Codec β) : Codec (α × β) where
  enc x := c.enc x.1 ++ d.enc x.2
  dec l := match c.dec l with
    | none => none
    | some (a, rest) => match d.dec rest with
      | none => none
      | some (b, rest2) => some ((a, b), rest2)
  complete := fun x rest => by
    simp [List.append_assoc, c.complete x.1 (d.enc x.2 ++ rest), d.complete x.2 rest]

/-- Codec for sums: a tag token then the payload. -/
def sumC (c : Codec α) (d : Codec β) : Codec (α ⊕ β) where
  enc x := match x with
    | .inl a => 0 :: c.enc a
    | .inr b => 1 :: d.enc b
  dec l := match l with
    | [] => none
    | 0 :: rest => match c.dec rest with
      | none => none
      | some (a, rest2) => some (.inl a, rest2)
    | _ :: rest => match d.dec rest with
      | none => none
      | some (b, rest2) => some (.inr b, rest2)
  complete := fun x rest => by
    cases x with
    | inl a => simp [c.complete a rest]
    | inr b => simp [d.complete b rest]

/-- Codec for options: a tag token, then the payload if present. -/
def optionC (c : Codec α) : Codec (Option α) where
  enc x := match x with
    | none => [0]
    | some a => 1 :: c.enc a
  dec l := match l with
    | [] => none
    | 0 :: rest => some (none, rest)
    | _ :: rest => match c.dec rest with
      | none => none
      | some (a, rest2) => some (some a, rest2)
  complete := fun x rest => by
    cases x with
    | none => simp
    | some a => simp [c.complete a rest]

/-- Decode `n` consecutive values. -/
def decList (c : Codec α) : Nat → List Nat → Option (List α × List Nat)
  | 0, l => some ([], l)
  | n + 1, l => match c.dec l with
    | none => none
    | some (a, rest) => match decList c n rest with
      | none => none
      | some (as, rest2) => some (a :: as, rest2)

/-- Codec for lists: a length token then the elements in sequence. -/
def listC (c : Codec α) : Codec (List α) where
  enc xs := xs.length :: (xs.map c.enc).flatten
  dec l := match l with
    | [] => none
    | n :: rest => decList c n rest
  complete := fun xs rest => by
    simp only [List.cons_append]
    suffices h : ∀ (ys : List α) (r : List Nat),
        decList c ys.length ((ys.map c.enc).flatten ++ r) = some (ys, r) by
      exact h xs rest
    intro ys
    induction ys with
    | nil => intro r; simp [decList]
    | cons a as ih =>
      intro r
      simp only [List.map_cons, List.flatten_cons, List.append_assoc, List.length_cons]
      simp [decList, c.complete a ((as.map c.enc).flatten ++ r), ih r]

/-- Codec for `Int` via the sign-and-magnitude embedding into `Nat`. -/
def intC : Codec Int :=
  mapC natC
    (fun i => match i with
      | .ofNat n => 2 * n
      | .negSucc n => 2 * n + 1)
    (fun n => if n % 2 = 0 then some (Int.ofNat (n / 2)) else some (Int.negSucc (n / 2)))
    (by
      intro b
      rcases b with n | n
      · have h2 : (2 * n) % 2 = 0 := by omega
        have h3 : 2 * n / 2 = n := by omega
        simp [h2, h3]
      · have h2 : ¬((2 * n + 1) % 2 = 0) := by omega
        have h3 : (2 * n + 1) / 2 = n := by omega
        simp [h2, h3])

/-- Codec for `Char` via its code point. -/
def charC : Codec Char :=
  mapC natC Char.toNat
    (fun n => if (Char.ofNat n).toNat = n then some (Char.ofNat n) else none)
    (by intro c; simp [Char.ofNat_toNat])

/-- Codec for `String` via its character list. -/
def stringC : Codec String :=
  isoC (listC charC) String.data String.mk (fun _ => rfl)

/-- Codec for `ℚ` via numerator and denominator. -/
def ratC : Codec ℚ :=
  mapC (prodC intC natC)
    (fun q => (q.num, q.den))
    (fun x => if h : x.2 ≠ 0 ∧ x.1.natAbs.Coprime x.2 then some ⟨x.1, x.2, h.1, h.2⟩ else none)
    (by
      intro q
      have h : q.den ≠ 0 ∧ q.num.natAbs.Coprime q.den := ⟨q.den_nz, q.reduced⟩
      show dite _ _ _ = _
      rw [dif_pos h])

/-- Right-associated product codec, for building structure codecs. -/
def Codec.p (c : Codec α) (d : Codec β) : Codec (α × β) := prodC c d

/-!
## Data model (mirrors `types.ts`)

Modelling conventions for the TypeScript/JSON data: `number` is modelled as
`ℚ` (the claims never compute with numbers, they are payload); string-literal
union types are modelled as `String` (their runtime representation);
`T | null` and optional fields are both modelled as `Option`; `any` fields
are modelled as `JAny` (an opaque JSON value, kept as its serialized text);
strings that carry base64 data (`answerHash`, `quickAccessVault`, the
profile-card `data`/`sig` fields) are modelled as `B64`, a token list, with
the base64 codec being the platform's invertible transport encoding.
-/

/-- An opaque JSON value (TypeScript `any`), kept as its serialized text. -/
abbrev JAny := String

/-- Base64 text, modelled as the token list it transports. -/
abbrev B64 := List Nat

/-- A JSON Web Key, modelled as its JSON fields.  The claims only compare
keys for equality. -/
structure Jwk where
  fields : List (String × String)
deriving DecidableEq

def jwkC : Codec Jwk :=
  isoC (listC (stringC.p stringC)) Jwk.fields Jwk.mk (fun _ => rfl)

def b64C : Codec B64 := listC natC
def jAnyC : Codec JAny := stringC

structure ChapterOption where
  text : String
  nextChapterId : String
deriving DecidableEq

def chapterOptionC : Codec ChapterOption :=
  isoC (stringC.p stringC) (fun a => (a.text, a.nextChapterId))
    (fun x => ⟨x.1, x.2⟩) (fun _ => rfl)

structure Note where
  paragraphId : String
  content : String
  isPublic : Bool
  authorId : String
  authorUsername : String
deriving DecidableEq

def noteC : Codec Note :=
  isoC (stringC.p (stringC.p (boolC.p (stringC.p stringC))))
    (fun a => (a.paragraphId, a.content, a.isPublic, a.authorId, a.authorUsername))
    (fun x => ⟨x.1, x.2.1, x.2.2.1, x.2.2.2.1, x.2.2.2.2⟩) (fun _ => rfl)

/-- One entry of `Chapter.critique` (`{ score, comment, suggestion? }`). -/
structure Critique where
  score : ℚ
  comment : String
  suggestion : Option String
deriving DecidableEq

def critiqueC : Codec Critique :=
  isoC (ratC.p (stringC.p (optionC stringC)))
    (fun a => (a.score, a.comment, a.suggestion))
    (fun x => ⟨x.1, x.2.1, x.2.2⟩) (fun _ => rfl)

structure Chapter where
  id : String
  title : String
  content : String
  illustrationUrl : Option String
  illustrationPrompt : Option String
  options : Option (List ChapterOption)
  critique : Option (List (String × Critique))
  emotionTags : Option (List String)
  microSummary : String
  notes : Option (List Note)
deriving DecidableEq

def chapterC : Codec Chapter :=
  isoC (stringC.p (stringC.p (stringC.p ((optionC stringC).p ((optionC stringC).p
      ((optionC (listC chapterOptionC)).p ((optionC (listC (stringC.p critiqueC))).p
      ((optionC (listC stringC)).p (stringC.p (optionC (listC noteC)))))))))))
    (fun a => (a.id, a.title, a.content, a.illustrationUrl, a.illustrationPrompt,
      a.options, a.critique, a.emotionTags, a.microSummary, a.notes))
    (fun x => ⟨x.1, x.2.1, x.2.2.1, x.2.2.2.1, x.2.2.2.2.1, x.2.2.2.2.2.1,
      x.2.2.2.2.2.2.1, x.2.2.2.2.2.2.2.1, x.2.2.2.2.2.2.2.2.1, x.2.2.2.2.2.2.2.2.2⟩)
    (fun _ => rfl)

structure LoreEntry where
  id : String
  title : String
  category : String
  content : String
deriving DecidableEq

def loreEntryC : Codec LoreEntry :=
  isoC (stringC.p (stringC.p (stringC.p stringC)))
    (fun a => (a.id, a.title, a.category, a.content))
    (fun x => ⟨x.1, x.2.1, x.2.2.1, x.2.2.2⟩) (fun _ => rfl)

structure GlossaryEntry where
  term : String
  definition : String
deriving DecidableEq

def glossaryEntryC : Codec GlossaryEntry :=
  isoC (stringC.p stringC) (fun a => (a.term, a.definition))
    (fun x => ⟨x.1, x.2⟩) (fun _ => rfl)

structure Review where
  authorId : String
  authorUsername : String
  rating : ℚ
  text : String
deriving DecidableEq

def reviewC : Codec Review :=
  isoC (stringC.p (stringC.p (ratC.p stringC)))
    (fun a => (a.authorId, a.authorUsername, a.rating, a.text))
    (fun x => ⟨x.1, x.2.1, x.2.2.1, x.2.2.2⟩) (fun _ => rfl)

structure FandomData where
  forumPosts : List JAny
  polls : List JAny
  theories : List JAny
  fanart : List JAny
deriving DecidableEq

def fandomDataC : Codec FandomData :=
  isoC ((listC jAnyC).p ((listC jAnyC).p ((listC jAnyC).p (listC jAnyC))))
    (fun a => (a.forumPosts, a.polls, a.theories, a.fanart))
    (fun x => ⟨x.1, x.2.1, x.2.2.1, x.2.2.2⟩) (fun _ => rfl)

structure ContextFile where
  name : String
  type : String
  content : String
deriving DecidableEq

def contextFileC : Codec ContextFile :=
  isoC (stringC.p (stringC.p stringC))
    (fun a => (a.name, a.type, a.content))
    (fun x => ⟨x.1, x.2.1, x.2.2⟩) (fun _ => rfl)

structure Relationship where
  characterId : String
  characterName : String
  type : String
  description : String
deriving DecidableEq

def relationshipC : Codec Relationship :=
  isoC (stringC.p (stringC.p (stringC.p stringC)))
    (fun a => (a.characterId, a.characterName, a.type, a.description))
    (fun x => ⟨x.1, x.2.1, x.2.2.1, x.2.2.2⟩) (fun _ => rfl)

structure CharacterArc where
  title : String
  description : String
  progress : ℚ
deriving DecidableEq

def characterArcC : Codec CharacterArc :=
  isoC (stringC.p (stringC.p ratC))
    (fun a => (a.title, a.description, a.progress))
    (fun x => ⟨x.1, x.2.1, x.2.2⟩) (fun _ => rfl)

structure Character where
  id : String
  name : String
  role : String
  description : String
  memoryVector : Option (List String)
  portraitUrl : Option String
  age : Option (ℚ ⊕ String)
  status : Option String
  relationships : Option (List Relationship)
  powers : Option (List String)
  backstory : Option String
  characterArcs : Option (List CharacterArc)
  universeId : Option String
deriving DecidableEq

def characterC : Codec Character :=
  isoC (stringC.p (stringC.p (stringC.p (stringC.p ((optionC (listC stringC)).p
      ((optionC stringC).p ((optionC (sumC ratC stringC)).p ((optionC stringC).p
      ((optionC (listC relationshipC)).p ((optionC (listC stringC)).p
      ((optionC stringC).p ((optionC (listC characterArcC)).p (optionC stringC)))))))))))))
    (fun a => (a.id, a.name, a.role, a.description, a.memoryVector, a.portraitUrl,
      a.age, a.status, a.relationships, a.powers, a.backstory, a.characterArcs, a.universeId))
    (fun x => ⟨x.1, x.2.1, x.2.2.1, x.2.2.2.1, x.2.2.2.2.1, x.2.2.2.2.2.1,
      x.2.2.2.2.2.2.1, x.2.2.2.2.2.2.2.1, x.2.2.2.2.2.2.2.2.1, x.2.2.2.2.2.2.2.2.2.1,
      x.2.2.2.2.2.2.2.2.2.2.1, x.2.2.2.2.2.2.2.2.2.2.2.1, x.2.2.2.2.2.2.2.2.2.2.2.2⟩)
    (fun _ => rfl)

structure ExplicitContentFlags where
  sexuality : Bool
  suicide : Bool
  selfHarm : Bool
  violence : Bool
  drugs : Bool
deriving DecidableEq

def explicitContentFlagsC : Codec ExplicitContentFlags :=
  isoC (boolC.p (boolC.p (boolC.p (boolC.p boolC))))
    (fun a => (a.sexuality, a.suicide, a.selfHarm, a.violence, a.drugs))
    (fun x => ⟨x.1, x.2.1, x.2.2.1, x.2.2.2.1, x.2.2.2.2⟩) (fun _ => rfl)

structure GenerationParams where
  storyType : String
  fandom : String
  setting : String
  genres : List String
  characters : List Character
  plotOutline : String
  writingStyle : String
  pointOfView : String
  tone : String
  pacing : String
  complexity : String
  chapters : ℚ
  chapterLength : String
  generateIllustrations : Bool
  contextFiles : List ContextFile
  inspirationPrompt : Option String
  enableBranching : Bool
  customIllustrationStyle : Option String
  activePluginId : Option String
  contentRating : String
  weaverAgeRating : Option String
  explicitContent : Option ExplicitContentFlags
  universeId : Option String
deriving DecidableEq

def generationParamsC : Codec GenerationParams :=
  isoC (stringC.p (stringC.p (stringC.p ((listC stringC).p ((listC characterC).p
      (stringC.p (stringC.p (stringC.p (stringC.p (stringC.p (stringC.p (ratC.p
      (stringC.p (boolC.p ((listC contextFileC).p ((optionC stringC).p (boolC.p
      ((optionC stringC).p ((optionC stringC).p (stringC.p ((optionC stringC).p
      ((optionC explicitContentFlagsC).p (optionC stringC)))))))))))))))))))))))
    (fun a => (a.storyType, a.fandom, a.setting, a.genres, a.characters,
      a.plotOutline, a.writingStyle, a.pointOfView, a.tone, a.pacing, a.complexity,
      a.chapters, a.chapterLength, a.generateIllustrations, a.contextFiles,
      a.inspirationPrompt, a.enableBranching, a.customIllustrationStyle,
      a.activePluginId, a.contentRating, a.weaverAgeRating, a.explicitContent,
      a.universeId))
    (fun x => ⟨x.1, x.2.1, x.2.2.1, x.2.2.2.1, x.2.2.2.2.1, x.2.2.2.2.2.1,
      x.2.2.2.2.2.2.1, x.2.2.2.2.2.2.2.1, x.2.2.2.2.2.2.2.2.1,
      x.2.2.2.2.2.2.2.2.2.1, x.2.2.2.2.2.2.2.2.2.2.1, x.2.2.2.2.2.2.2.2.2.2.2.1,
      x.2.2.2.2.2.2.2.2.2.2.2.2.1, x.2.2.2.2.2.2.2.2.2.2.2.2.2.1,
      x.2.2.2.2.2.2.2.2.2.2.2.2.2.2.1, x.2.2.2.2.2.2.2.2.2.2.2.2.2.2.2.1,
      x.2.2.2.2.2.2.2.2.2.2.2.2.2.2.2.2.1, x.2.2.2.2.2.2.2.2.2.2.2.2.2.2.2.2.2.1,
      x.2.2.2.2.2.2.2.2.2.2.2.2.2.2.2.2.2.2.1,
      x.2.2.2.2.2.2.2.2.2.2.2.2.2.2.2.2.2.2.2.1,
      x.2.2.2.2.2.2.2.2.2.2.2.2.2.2.2.2.2.2.2.2.1,
      x.2.2.2.2.2.2.2.2.2.2.2.2.2.2.2.2.2.2.2.2.2.1,
      x.2.2.2.2.2.2.2.2.2.2.2.2.2.2.2.2.2.2.2.2.2.2⟩)
    (fun _ => rfl)

structure GenerationPreset extends GenerationParams where
  presetName : String
deriving DecidableEq

def generationPresetC : Codec GenerationPreset :=
  isoC (generationParamsC.p stringC)
    (fun a => (a.toGenerationParams, a.presetName))
    (fun x => ⟨x.1, x.2⟩) (fun _ => rfl)

/-- `Story.saga` (`{ id, name }`). -/
structure Saga where
  id : String
  name : String
deriving DecidableEq

def sagaC : Codec Saga :=
  isoC (stringC.p stringC) (fun a => (a.id, a.name))
    (fun x => ⟨x.1, x.2⟩) (fun _ => rfl)

/-- `Story.socialStats`. -/
structure SocialStats where
  activeReaders : ℚ
  featuredReviews : List Review
  associatedFandoms : List String
deriving DecidableEq

def socialStatsC : Codec SocialStats :=
  isoC (ratC.p ((listC reviewC).p (listC stringC)))
    (fun a => (a.activeReaders, a.featuredReviews, a.associatedFandoms))
    (fun x => ⟨x.1, x.2.1, x.2.2⟩) (fun _ => rfl)

structure Story where
  id : String
  title : String
  summary : String
  tags : List String
  chapters : List Chapter
  chapterHistory : List String
  coverUrl : String
  animatedCoverUrl : Option String
  readingTimeMinutes : ℚ
  params : GenerationParams
  isBranching : Option Bool
  loreBook : Option (List LoreEntry)
  ageRating : Option String
  weaverAgeRating : Option String
  starRating : Option ℚ
  whatToExpect : Option String
  authorTrivia : Option String
  interactiveMapUrl : Option String
  timelineData : Option JAny
  socialStats : Option SocialStats
  glossary : Option (List GlossaryEntry)
  fandomData : Option FandomData
  universeId : Option String
  saga : Option Saga
  spinOffFrom : Option String
  crossoverWith : Option (List String)
  isCuratedForKids : Option Bool
deriving DecidableEq

def storyC : Codec Story :=
  isoC (stringC.p (stringC.p (stringC.p ((listC stringC).p ((listC chapterC).p
      ((listC stringC).p (stringC.p ((optionC stringC).p (ratC.p
      (generationParamsC.p ((optionC boolC).p ((optionC (listC loreEntryC)).p
      ((optionC stringC).p ((optionC stringC).p ((optionC ratC).p
      ((optionC stringC).p ((optionC stringC).p ((optionC stringC).p
      ((optionC jAnyC).p ((optionC socialStatsC).p ((optionC (listC glossaryEntryC)).p
      ((optionC fandomDataC).p ((optionC stringC).p ((optionC sagaC).p
      ((optionC stringC).p ((optionC (listC stringC)).p
      (optionC boolC)))))))))))))))))))))))))))
    (fun a => (a.id, a.title, a.summary, a.tags, a.chapters, a.chapterHistory,
      a.coverUrl, a.animatedCoverUrl, a.readingTimeMinutes, a.params, a.isBranching,
      a.loreBook, a.ageRating, a.weaverAgeRating, a.starRating, a.whatToExpect,
      a.authorTrivia, a.interactiveMapUrl, a.timelineData, a.socialStats,
      a.glossary, a.fandomData, a.universeId, a.saga, a.spinOffFrom,
      a.crossoverWith, a.isCuratedForKids))
    (fun x => ⟨x.1, x.2.1, x.2.2.1, x.2.2.2.1, x.2.2.2.2.1, x.2.2.2.2.2.1,
      x.2.2.2.2.2.2.1, x.2.2.2.2.2.2.2.1, x.2.2.2.2.2.2.2.2.1,
      x.2.2.2.2.2.2.2.2.2.1, x.2.2.2.2.2.2.2.2.2.2.1, x.2.2.2.2.2.2.2.2.2.2.2.1,
      x.2.2.2.2.2.2.2.2.2.2.2.2.1, x.2.2.2.2.2.2.2.2.2.2.2.2.2.1,
      x.2.2.2.2.2.2.2.2.2.2.2.2.2.2.1, x.2.2.2.2.2.2.2.2.2.2.2.2.2.2.2.1,
      x.2.2.2.2.2.2.2.2.2.2.2.2.2.2.2.2.1, x.2.2.2.2.2.2.2.2.2.2.2.2.2.2.2.2.2.1,
      x.2.2.2.2.2.2.2.2.2.2.2.2.2.2.2.2.2.2.1,
      x.2.2.2.2.2.2.2.2.2.2.2.2.2.2.2.2.2.2.2.1,
      x.2.2.2.2.2.2.2.2.2.2.2.2.2.2.2.2.2.2.2.2.1,
      x.2.2.2.2.2.2.2.2.2.2.2.2.2.2.2.2.2.2.2.2.2.1,
      x.2.2.2.2.2.2.2.2.2.2.2.2.2.2.2.2.2.2.2.2.2.2.1,
      x.2.2.2.2.2.2.2.2.2.2.2.2.2.2.2.2.2.2.2.2.2.2.2.1,
      x.2.2.2.2.2.2.2.2.2.2.2.2.2.2.2.2.2.2.2.2.2.2.2.2.1,
      x.2.2.2.2.2.2.2.2.2.2.2.2.2.2.2.2.2.2.2.2.2.2.2.2.2.1,
      x.2.2.2.2.2.2.2.2.2.2.2.2.2.2.2.2.2.2.2.2.2.2.2.2.2.2⟩)
    (fun _ => rfl)

/-- An `{ id, name, description }` entry of `Universe.races` /
`magicSystems` / `technologies`. -/
structure NamedEntry where
  id : String
  name : String
  description : String
deriving DecidableEq

def namedEntryC : Codec NamedEntry :=
  isoC (stringC.p (stringC.p stringC))
    (fun a => (a.id, a.name, a.description))
    (fun x => ⟨x.1, x.2.1, x.2.2⟩) (fun _ => rfl)

structure Universe where
  id : String
  name : String
  description : String
  timeline : JAny
  worldMapUrl : Option String
  history : String
  worldLaws : String
  races : Option (List NamedEntry)
  magicSystems : Option (List NamedEntry)
  technologies : Option (List NamedEntry)
  storyIds : List String
  characterIds : List String
  ownerId : String
deriving DecidableEq

def universeC : Codec Universe :=
  isoC (stringC.p (stringC.p (stringC.p (jAnyC.p ((optionC stringC).p
      (stringC.p (stringC.p ((optionC (listC namedEntryC)).p
      ((optionC (listC namedEntryC)).p ((optionC (listC namedEntryC)).p
      ((listC stringC).p ((listC stringC).p stringC))))))))))))
    (fun a => (a.id, a.name, a.description, a.timeline, a.worldMapUrl, a.history,
      a.worldLaws, a.races, a.magicSystems, a.technologies, a.storyIds,
      a.characterIds, a.ownerId))
    (fun x => ⟨x.1, x.2.1, x.2.2.1, x.2.2.2.1, x.2.2.2.2.1, x.2.2.2.2.2.1,
      x.2.2.2.2.2.2.1, x.2.2.2.2.2.2.2.1, x.2.2.2.2.2.2.2.2.1,
      x.2.2.2.2.2.2.2.2.2.1, x.2.2.2.2.2.2.2.2.2.2.1,
      x.2.2.2.2.2.2.2.2.2.2.2.1, x.2.2.2.2.2.2.2.2.2.2.2.2⟩)
    (fun _ => rfl)

structure SecurityQuestion where
  question : String
  answerHash : B64
deriving DecidableEq

def securityQuestionC : Codec SecurityQuestion :=
  isoC (stringC.p b64C) (fun a => (a.question, a.answerHash))
    (fun x => ⟨x.1, x.2⟩) (fun _ => rfl)

structure TierPurchase where
  tier : String
  purchaseDate : String
  cost : ℚ
deriving DecidableEq

def tierPurchaseC : Codec TierPurchase :=
  isoC (stringC.p (stringC.p ratC))
    (fun a => (a.tier, a.purchaseDate, a.cost))
    (fun x => ⟨x.1, x.2.1, x.2.2⟩) (fun _ => rfl)

structure DailyQuest where
  id : String
  title : String
  description : String
  reward : ℚ
  completed : Bool
  completedDate : Option String
deriving DecidableEq

def dailyQuestC : Codec DailyQuest :=
  isoC (stringC.p (stringC.p (stringC.p (ratC.p (boolC.p (optionC stringC))))))
    (fun a => (a.id, a.title, a.description, a.reward, a.completed, a.completedDate))
    (fun x => ⟨x.1, x.2.1, x.2.2.1, x.2.2.2.1, x.2.2.2.2.1, x.2.2.2.2.2⟩)
    (fun _ => rfl)

structure Quests where
  firstStoryCompleted : Bool
  tenChaptersRead : Bool
  firstFriendAdded : Bool
  firstPresetSaved : Bool
deriving DecidableEq

def questsC : Codec Quests :=
  isoC (boolC.p (boolC.p (boolC.p boolC)))
    (fun a => (a.firstStoryCompleted, a.tenChaptersRead, a.firstFriendAdded,
      a.firstPresetSaved))
    (fun x => ⟨x.1, x.2.1, x.2.2.1, x.2.2.2⟩) (fun _ => rfl)

/-- `AccountSettings.signingKeyPair` (`{ privateKey, publicKey }` as JWKs). -/
structure SigningKeyPairJwk where
  privateKey : Jwk
  publicKey : Jwk
deriving DecidableEq

def signingKeyPairJwkC : Codec SigningKeyPairJwk :=
  isoC (jwkC.p jwkC) (fun a => (a.privateKey, a.publicKey))
    (fun x => ⟨x.1, x.2⟩) (fun _ => rfl)

/-- `AccountSettings.parentalControls`. -/
structure ParentalControls where
  pin : String
  contentFilters : List String
  timeLimits : JAny
deriving DecidableEq

def parentalControlsC : Codec ParentalControls :=
  isoC (stringC.p ((listC stringC).p jAnyC))
    (fun a => (a.pin, a.contentFilters, a.timeLimits))
    (fun x => ⟨x.1, x.2.1, x.2.2⟩) (fun _ => rfl)

structure AccountSettings where
  userId : String
  username : String
  avatarUrl : String
  status : String
  tier : String
  tierExpiresAt : Option String
  autoRenewTier : Bool
  creatorArchetype : Option String
  favoriteGenres : List String
  favoriteFandoms : String
  favoriteWritingStyle : String
  favoriteCharacters : String
  weaverins : ℚ
  savingsGoal : ℚ
  stingyMode : Bool
  purchases : List TierPurchase
  quests : Quests
  signingKeyPair : SigningKeyPairJwk
  achievements : List (String × String)
  avatarFrame : String
  passwordHint : Option String
  securityQuestions : Option (List SecurityQuestion)
  isAgeVerified : Option Bool
  matureContentPIN : Option String
  writerRank : Option String
  rankPoints : Option ℚ
  dailyQuests : Option (List DailyQuest)
  parentalControls : Option ParentalControls
  passkeyCredentialId : Option String
  passkeyPublicKey : Option Jwk
deriving DecidableEq

def accountSettingsC : Codec AccountSettings :=
  isoC (stringC.p (stringC.p (stringC.p (stringC.p (stringC.p ((optionC stringC).p
      (boolC.p ((optionC stringC).p ((listC stringC).p (stringC.p (stringC.p
      (stringC.p (ratC.p (ratC.p (boolC.p ((listC tierPurchaseC).p (questsC.p
      (signingKeyPairJwkC.p ((listC (stringC.p stringC)).p (stringC.p
      ((optionC stringC).p ((optionC (listC securityQuestionC)).p
      ((optionC boolC).p ((optionC stringC).p ((optionC stringC).p
      ((optionC ratC).p ((optionC (listC dailyQuestC)).p
      ((optionC parentalControlsC).p ((optionC stringC).p
      (optionC jwkC))))))))))))))))))))))))))))))
    (fun a => (a.userId, a.username, a.avatarUrl, a.status, a.tier, a.tierExpiresAt,
      a.autoRenewTier, a.creatorArchetype, a.favoriteGenres, a.favoriteFandoms,
      a.favoriteWritingStyle, a.favoriteCharacters, a.weaverins, a.savingsGoal,
      a.stingyMode, a.purchases, a.quests, a.signingKeyPair, a.achievements,
      a.avatarFrame, a.passwordHint, a.securityQuestions, a.isAgeVerified,
      a.matureContentPIN, a.writerRank, a.rankPoints, a.dailyQuests,
      a.parentalControls, a.passkeyCredentialId, a.passkeyPublicKey))
    (fun x => ⟨x.1, x.2.1, x.2.2.1, x.2.2.2.1, x.2.2.2.2.1, x.2.2.2.2.2.1,
      x.2.2.2.2.2.2.1, x.2.2.2.2.2.2.2.1, x.2.2.2.2.2.2.2.2.1,
      x.2.2.2.2.2.2.2.2.2.1, x.2.2.2.2.2.2.2.2.2.2.1, x.2.2.2.2.2.2.2.2.2.2.2.1,
      x.2.2.2.2.2.2.2.2.2.2.2.2.1, x.2.2.2.2.2.2.2.2.2.2.2.2.2.1,
      x.2.2.2.2.2.2.2.2.2.2.2.2.2.2.1, x.2.2.2.2.2.2.2.2.2.2.2.2.2.2.2.1,
      x.2.2.2.2.2.2.2.2.2.2.2.2.2.2.2.2.1, x.2.2.2.2.2.2.2.2.2.2.2.2.2.2.2.2.2.1,
      x.2.2.2.2.2.2.2.2.2.2.2.2.2.2.2.2.2.2.1,
      x.2.2.2.2.2.2.2.2.2.2.2.2.2.2.2.2.2.2.2.1,
      x.2.2.2.2.2.2.2.2.2.2.2.2.2.2.2.2.2.2.2.2.1,
      x.2.2.2.2.2.2.2.2.2.2.2.2.2.2.2.2.2.2.2.2.2.1,
      x.2.2.2.2.2.2.2.2.2.2.2.2.2.2.2.2.2.2.2.2.2.2.1,
      x.2.2.2.2.2.2.2.2.2.2.2.2.2.2.2.2.2.2.2.2.2.2.2.1,
      x.2.2.2.2.2.2.2.2.2.2.2.2.2.2.2.2.2.2.2.2.2.2.2.2.1,
      x.2.2.2.2.2.2.2.2.2.2.2.2.2.2.2.2.2.2.2.2.2.2.2.2.2.1,
      x.2.2.2.2.2.2.2.2.2.2.2.2.2.2.2.2.2.2.2.2.2.2.2.2.2.2.1,
      x.2.2.2.2.2.2.2.2.2.2.2.2.2.2.2.2.2.2.2.2.2.2.2.2.2.2.2.1,
      x.2.2.2.2.2.2.2.2.2.2.2.2.2.2.2.2.2.2.2.2.2.2.2.2.2.2.2.2.1,
      x.2.2.2.2.2.2.2.2.2.2.2.2.2.2.2.2.2.2.2.2.2.2.2.2.2.2.2.2.2⟩)
    (fun _ => rfl)

structure StylePlugin where
  id : String
  name : String
  author : String
  description : String
  systemInstruction : String
  styleExamples : List String
deriving DecidableEq

def stylePluginC : Codec StylePlugin :=
  isoC (stringC.p (stringC.p (stringC.p (stringC.p (stringC.p (listC stringC))))))
    (fun a => (a.id, a.name, a.author, a.description, a.systemInstruction,
      a.styleExamples))
    (fun x => ⟨x.1, x.2.1, x.2.2.1, x.2.2.2.1, x.2.2.2.2.1, x.2.2.2.2.2⟩)
    (fun _ => rfl)

structure AIGenerationSettings where
  defaultWritingStyle : String
  defaultPointOfView : String
  aiLanguage : String
  creativeFreedom : ℚ
  storyContinuityLevel : ℚ
  branchingComplexity : ℚ
  defaultIllustrationStyle : String
  defaultNegativePrompt : String
  autoGenerateTags : Bool
  imageQuality : String
  plugins : List StylePlugin
  defaultComplexity : Option String
deriving DecidableEq

def aiGenerationSettingsC : Codec AIGenerationSettings :=
  isoC (stringC.p (stringC.p (stringC.p (ratC.p (ratC.p (ratC.p (stringC.p
      (stringC.p (boolC.p (stringC.p ((listC stylePluginC).p
      (optionC stringC))))))))))))
    (fun a => (a.defaultWritingStyle, a.defaultPointOfView, a.aiLanguage,
      a.creativeFreedom, a.storyContinuityLevel, a.branchingComplexity,
      a.defaultIllustrationStyle, a.defaultNegativePrompt, a.autoGenerateTags,
      a.imageQuality, a.plugins, a.defaultComplexity))
    (fun x => ⟨x.1, x.2.1, x.2.2.1, x.2.2.2.1, x.2.2.2.2.1, x.2.2.2.2.2.1,
      x.2.2.2.2.2.2.1, x.2.2.2.2.2.2.2.1, x.2.2.2.2.2.2.2.2.1,
      x.2.2.2.2.2.2.2.2.2.1, x.2.2.2.2.2.2.2.2.2.2.1, x.2.2.2.2.2.2.2.2.2.2.2⟩)
    (fun _ => rfl)

structure ReaderDefaultSettings where
  font : String
  fontSize : ℚ
  theme : String
  lineHeight : ℚ
  justifyText : Bool
  showProgressBar : Bool
  showTimeLeft : Bool
  autoLoadNextChapter : Bool
  tapNavigation : Bool
  enableBionicReading : Bool
  cinemaMode : Option Bool
  dynamicTypography : Option Bool
  dynamicBackgrounds : Option Bool
  showMiniHud : Option Bool
deriving DecidableEq

def readerDefaultSettingsC : Codec ReaderDefaultSettings :=
  isoC (stringC.p (ratC.p (stringC.p (ratC.p (boolC.p (boolC.p (boolC.p (boolC.p
      (boolC.p (boolC.p ((optionC boolC).p ((optionC boolC).p
      ((optionC boolC).p (optionC boolC))))))))))))))
    (fun a => (a.font, a.fontSize, a.theme, a.lineHeight, a.justifyText,
      a.showProgressBar, a.showTimeLeft, a.autoLoadNextChapter, a.tapNavigation,
      a.enableBionicReading, a.cinemaMode, a.dynamicTypography,
      a.dynamicBackgrounds, a.showMiniHud))
    (fun x => ⟨x.1, x.2.1, x.2.2.1, x.2.2.2.1, x.2.2.2.2.1, x.2.2.2.2.2.1,
      x.2.2.2.2.2.2.1, x.2.2.2.2.2.2.2.1, x.2.2.2.2.2.2.2.2.1,
      x.2.2.2.2.2.2.2.2.2.1, x.2.2.2.2.2.2.2.2.2.2.1, x.2.2.2.2.2.2.2.2.2.2.2.1,
      x.2.2.2.2.2.2.2.2.2.2.2.2.1, x.2.2.2.2.2.2.2.2.2.2.2.2.2⟩)
    (fun _ => rfl)

structure AccessibilitySettings where
  highContrast : Bool
  dyslexiaFriendlyFont : Bool
  reduceAnimations : Bool
  textToSpeech : Bool
  ttsVoice : String
  ttsSpeed : ℚ
  ttsPitch : ℚ
  voiceNavigation : Bool
deriving DecidableEq

def accessibilitySettingsC : Codec AccessibilitySettings :=
  isoC (boolC.p (boolC.p (boolC.p (boolC.p (stringC.p (ratC.p (ratC.p boolC)))))))
    (fun a => (a.highContrast, a.dyslexiaFriendlyFont, a.reduceAnimations,
      a.textToSpeech, a.ttsVoice, a.ttsSpeed, a.ttsPitch, a.voiceNavigation))
    (fun x => ⟨x.1, x.2.1, x.2.2.1, x.2.2.2.1, x.2.2.2.2.1, x.2.2.2.2.2.1,
      x.2.2.2.2.2.2.1, x.2.2.2.2.2.2.2⟩)
    (fun _ => rfl)

structure StorageSettings where
  autoSaveEnabled : Bool
  autoSaveInterval : ℚ
  maxCacheSizeMB : ℚ
  autoClearCache : Bool
  quickAccessVault : Option B64
deriving DecidableEq

def storageSettingsC : Codec StorageSettings :=
  isoC (boolC.p (ratC.p (ratC.p (boolC.p (optionC b64C)))))
    (fun a => (a.autoSaveEnabled, a.autoSaveInterval, a.maxCacheSizeMB,
      a.autoClearCache, a.quickAccessVault))
    (fun x => ⟨x.1, x.2.1, x.2.2.1, x.2.2.2.1, x.2.2.2.2⟩) (fun _ => rfl)

structure ConnectionSettings where
  downloadIllustrationsOnWifiOnly : Bool
  syncOnWifiOnly : Bool
  dataSaverMode : Bool
deriving DecidableEq

def connectionSettingsC : Codec ConnectionSettings :=
  isoC (boolC.p (boolC.p boolC))
    (fun a => (a.downloadIllustrationsOnWifiOnly, a.syncOnWifiOnly, a.dataSaverMode))
    (fun x => ⟨x.1, x.2.1, x.2.2⟩) (fun _ => rfl)

structure Friend where
  userId : String
  username : String
  avatarUrl : String
  status : String
deriving DecidableEq

def friendC : Codec Friend :=
  isoC (stringC.p (stringC.p (stringC.p stringC)))
    (fun a => (a.userId, a.username, a.avatarUrl, a.status))
    (fun x => ⟨x.1, x.2.1, x.2.2.1, x.2.2.2⟩) (fun _ => rfl)

structure SocialSettings where
  profileVisibility : String
  showOnlineStatus : Bool
  allowFriendRequests : Bool
  allowStoryComments : String
  friendsList : List Friend
  blockedUsers : List String
deriving DecidableEq

def socialSettingsC : Codec SocialSettings :=
  isoC (stringC.p (boolC.p (boolC.p (stringC.p ((listC friendC).p
      (listC stringC))))))
    (fun a => (a.profileVisibility, a.showOnlineStatus, a.allowFriendRequests,
      a.allowStoryComments, a.friendsList, a.blockedUsers))
    (fun x => ⟨x.1, x.2.1, x.2.2.1, x.2.2.2.1, x.2.2.2.2.1, x.2.2.2.2.2⟩)
    (fun _ => rfl)

structure PrivacySettings where
  dataProcessingConsent : Bool
  shareAnalytics : Bool
deriving DecidableEq

def privacySettingsC : Codec PrivacySettings :=
  isoC (boolC.p boolC)
    (fun a => (a.dataProcessingConsent, a.shareAnalytics))
    (fun x => ⟨x.1, x.2⟩) (fun _ => rfl)

structure KeybindingsSettings where
  nextPage : String
  prevPage : String
  toggleFocusMode : String
  openSettings : String
  newStory : String
  commandPalette : String
deriving DecidableEq

def keybindingsSettingsC : Codec KeybindingsSettings :=
  isoC (stringC.p (stringC.p (stringC.p (stringC.p (stringC.p stringC)))))
    (fun a => (a.nextPage, a.prevPage, a.toggleFocusMode, a.openSettings,
      a.newStory, a.commandPalette))
    (fun x => ⟨x.1, x.2.1, x.2.2.1, x.2.2.2.1, x.2.2.2.2.1, x.2.2.2.2.2⟩)
    (fun _ => rfl)

/-- `GeneralSettings.lastRead`. -/
structure LastRead where
  storyId : String
  chapterId : String
  scrollPosition : ℚ
deriving DecidableEq

def lastReadC : Codec LastRead :=
  isoC (stringC.p (stringC.p ratC))
    (fun a => (a.storyId, a.chapterId, a.scrollPosition))
    (fun x => ⟨x.1, x.2.1, x.2.2⟩) (fun _ => rfl)

/-- `GeneralSettings.notificationSettings`. -/
structure NotificationSettings where
  storyReady : Bool
  achievements : Bool
  social : Bool
  promotions : Bool
deriving DecidableEq

def notificationSettingsC : Codec NotificationSettings :=
  isoC (boolC.p (boolC.p (boolC.p boolC)))
    (fun a => (a.storyReady, a.achievements, a.social, a.promotions))
    (fun x => ⟨x.1, x.2.1, x.2.2.1, x.2.2.2⟩) (fun _ => rfl)

structure GeneralSettings where
  appLanguage : String
  startupView : String
  timezone : String
  uiTheme : String
  uiMode : String
  showTooltips : String
  lastRead : Option LastRead
  notificationSettings : NotificationSettings
  matureContentFilter : String
deriving DecidableEq

def generalSettingsC : Codec GeneralSettings :=
  isoC (stringC.p (stringC.p (stringC.p (stringC.p (stringC.p (stringC.p
      ((optionC lastReadC).p (notificationSettingsC.p stringC))))))))
    (fun a => (a.appLanguage, a.startupView, a.timezone, a.uiTheme, a.uiMode,
      a.showTooltips, a.lastRead, a.notificationSettings, a.matureContentFilter))
    (fun x => ⟨x.1, x.2.1, x.2.2.1, x.2.2.2.1, x.2.2.2.2.1, x.2.2.2.2.2.1,
      x.2.2.2.2.2.2.1, x.2.2.2.2.2.2.2.1, x.2.2.2.2.2.2.2.2⟩)
    (fun _ => rfl)

structure AppSettings where
  general : GeneralSettings
  account : AccountSettings
  ai : AIGenerationSettings
  readerDefaults : ReaderDefaultSettings
  accessibility : AccessibilitySettings
  storage : StorageSettings
  connection : ConnectionSettings
  social : SocialSettings
  privacy : PrivacySettings
  keybindings : KeybindingsSettings
deriving DecidableEq

def appSettingsC : Codec AppSettings :=
  isoC (generalSettingsC.p (accountSettingsC.p (aiGenerationSettingsC.p
      (readerDefaultSettingsC.p (accessibilitySettingsC.p (storageSettingsC.p
      (connectionSettingsC.p (socialSettingsC.p (privacySettingsC.p
      keybindingsSettingsC)))))))))
    (fun a => (a.general, a.account, a.ai, a.readerDefaults, a.accessibility,
      a.storage, a.connection, a.social, a.privacy, a.keybindings))
    (fun x => ⟨x.1, x.2.1, x.2.2.1, x.2.2.2.1, x.2.2.2.2.1, x.2.2.2.2.2.1,
      x.2.2.2.2.2.2.1, x.2.2.2.2.2.2.2.1, x.2.2.2.2.2.2.2.2.1,
      x.2.2.2.2.2.2.2.2.2⟩)
    (fun _ => rfl)

/-- The unit of encryption (`.swe` bundle).  At runtime `readerSettings` is
assigned the full `settings.readerDefaults` object (TypeScript width
subtyping), so it is modelled with that type. -/
structure SweFileBundle where
  stories : List Story
  presets : List GenerationPreset
  settings : AppSettings
  universes : List Universe
  readerSettings : ReaderDefaultSettings
  version : ℚ
deriving DecidableEq

def sweFileBundleC : Codec SweFileBundle :=
  isoC ((listC storyC).p ((listC generationPresetC).p (appSettingsC.p
      ((listC universeC).p (readerDefaultSettingsC.p ratC)))))
    (fun a => (a.stories, a.presets, a.settings, a.universes, a.readerSettings,
      a.version))
    (fun x => ⟨x.1, x.2.1, x.2.2.1, x.2.2.2.1, x.2.2.2.2.1, x.2.2.2.2.2⟩)
    (fun _ => rfl)

structure ProfileCardData where
  userId : String
  username : String
  avatarUrl : String
  status : String
deriving DecidableEq

def profileCardDataC : Codec ProfileCardData :=
  isoC (stringC.p (stringC.p (stringC.p stringC)))
    (fun a => (a.userId, a.username, a.avatarUrl, a.status))
    (fun x => ⟨x.1, x.2.1, x.2.2.1, x.2.2.2⟩) (fun _ => rfl)

/-!
## Platform primitive models (`services/cryptoService`, part_004)

`TextEncoder`, base64, SHA-256, PBKDF2 and AES-GCM are platform calls, not
repository code.  They are modelled as ideal versions: the text encoder is
the (injective) code-point encoding, base64 is an invertible transport
encoding (taken as the identity on token lists), SHA-256 is a collision-free
digest, PBKDF2 is a collision-free KDF (the derived key is determined by,
and determines, the password/salt pair), and AES-GCM is a perfectly
authenticated cipher: decryption under a key and iv succeeds exactly on the
genuine ciphertext produced under that key and iv, and any other input —
wrong key, wrong iv, any altered or truncated ciphertext — fails.
-/

/-- Model of `textEncoder.encode` on strings: code points of the text. -/
def textEncode (s : String) : List Nat := s.data.map Char.toNat

/-- Model of `arrayBufferToBase64`: base64 is an invertible transport
encoding of bytes into text, modelled as the identity on token lists. -/
def arrayBufferToBase64 (buffer : List Nat) : B64 := buffer

/-- Model of `base64ToArrayBuffer`, the inverse transport decoding. -/
def base64ToArrayBuffer (base64 : B64) : List Nat := base64

/-- Model of SHA-256 as an ideal (collision-free) digest. -/
def sha256 (data : List Nat) : List Nat := data.length :: data

/-- Model of `s.trim()` (JavaScript): strip leading and trailing
whitespace. -/
def jsTrim (s : String) : String :=
  ⟨((s.data.dropWhile Char.isWhitespace).reverse.dropWhile Char.isWhitespace).reverse⟩

/-- Model of `s.toLowerCase()` (JavaScript): character-wise lowering. -/
def jsToLowerCase (s : String) : String := ⟨s.data.map Char.toLower⟩

/-- `hashText` (cryptoService): SHA-256 of the trimmed, lowercased text,
base64-encoded.  Used for security question answers. -/
def hashText (text : String) : B64 :=
  arrayBufferToBase64 (sha256 (textEncode (jsToLowerCase (jsTrim text))))

/-- Decidable equality for `Except` results, so that concrete runs of the
embedded operations can be checked by `decide`. -/
instance [DecidableEq ε] [DecidableEq α] : DecidableEq (Except ε α) := fun a b =>
  match a, b with
  | .error x, .error y =>
    if h : x = y then isTrue (h ▸ rfl)
    else isFalse (fun hh => h (Except.error.inj hh))
  | .ok x, .ok y =>
    if h : x = y then isTrue (h ▸ rfl)
    else isFalse (fun hh => h (Except.ok.inj hh))
  | .error _, .ok _ => isFalse (fun hh => Except.noConfusion hh)
  | .ok _, .error _ => isFalse (fun hh => Except.noConfusion hh)

/-- A derived AES key.  `getEncryptionKey` (PBKDF2, 200000 iterations,
SHA-256) is modelled as an ideal KDF: the key is the password/salt pair
itself, so equal inputs give equal keys and distinct inputs give distinct
keys. -/
structure DerivedKey where
  password : String
  salt : List Nat
deriving DecidableEq

/-- Model of `getEncryptionKey(password, salt)`. -/
def getEncryptionKey (password : String) (salt : List Nat) : DerivedKey :=
  ⟨password, salt⟩

def derivedKeyC : Codec DerivedKey :=
  isoC (stringC.p (listC natC)) (fun k => (k.password, k.salt))
    (fun x => ⟨x.1, x.2⟩) (fun _ => rfl)

/-- Codec of the (key, iv, plaintext) triple authenticated by the ideal
AES-GCM cipher. -/
def gcmBodyC : Codec (DerivedKey × List Nat × List Nat) :=
  derivedKeyC.p ((listC natC).p (listC natC))

/-- Ideal AES-GCM encryption: the ciphertext-with-auth-tag is a
self-describing, duplicated encoding of the (key, iv, plaintext) triple,
prefixed with its length.  The duplication plays the role of the
authentication tag: any change to a single token breaks the match between
the two halves, and the length prefix makes truncation detectable. -/
def gcmEncrypt (key : DerivedKey) (iv : List Nat) (plaintext : List Nat) : List Nat :=
  let body := gcmBodyC.enc (key, iv, plaintext)
  body.length :: (body ++ body)

/-- Ideal AES-GCM decryption: succeeds exactly on a genuine ciphertext
produced under the same key and iv, returning its plaintext. -/
def gcmDecrypt (key : DerivedKey) (iv : List Nat) (ciphertext : List Nat) :
    Option (List Nat) :=
  match ciphertext with
  | [] => none
  | n :: rest =>
    if rest.length = 2 * n then
      let h1 := rest.take n
      let h2 := rest.drop n
      if h1 = h2 then
        match gcmBodyC.dec h1 with
        | some ((k, ivd, pt), []) => if k = key ∧ ivd = iv then some pt else none
        | _ => none
      else none
    else none

/-- The randomness drawn by one `encryptForFile` call:
`crypto.getRandomValues` yields a fresh 16-byte salt and 12-byte iv. -/
structure Entropy where
  salt : List Nat
  iv : List Nat
deriving DecidableEq

/-- The single uniform decryption-failure message of `decryptFromFile`. -/
def decryptionFailedMessage : String :=
  "La desencriptación falló. Revisa tu contraseña o el archivo puede estar corrupto."

/-- The part of `decryptFromFile` after slicing the buffer (introduced for
the proofs; `decryptFromFile` below is definitionally this applied to the
buffer's slices). -/
def decryptCore (key : DerivedKey) (iv ct : List Nat) :
    Except String SweFileBundle :=
  match gcmDecrypt key iv ct with
  | none => .error decryptionFailedMessage
  | some decryptedData =>
    match sweFileBundleC.dec decryptedData with
    | some (bundle, []) => .ok bundle
    | _ => .error decryptionFailedMessage

/-- `encryptForFile(data, password)` (cryptoService): draw a fresh salt and
iv, derive the key, serialize the bundle (`JSON.stringify` + UTF-8 encode,
modelled by the injective bundle codec), AES-GCM encrypt, and return
`salt ‖ iv ‖ ciphertext`.  The entropy drawn by the call is passed
explicitly. -/
def encryptForFile (data : SweFileBundle) (password : String) (e : Entropy) :
    List Nat :=
  let salt := e.salt
  let iv := e.iv
  let key := getEncryptionKey password salt
  let serializedData := sweFileBundleC.enc data
  let encryptedData := gcmEncrypt key iv serializedData
  salt ++ iv ++ encryptedData

/-- `decryptFromFile(fileBuffer, password)` (cryptoService): split the
buffer at the fixed offsets 16 and 28, derive the key, AES-GCM decrypt and
parse the bundle.  Every failure — of the cipher's authentication check or
of JSON parsing — is caught and surfaced as the one uniform
`decryptionFailedMessage`. -/
def decryptFromFile (fileBuffer : List Nat) (password : String) :
    Except String SweFileBundle :=
  let salt := fileBuffer.take 16
  let iv := (fileBuffer.drop 16).take 12
  let data := fileBuffer.drop 28
  let key := getEncryptionKey password salt
  match gcmDecrypt key iv data with
  | none => .error decryptionFailedMessage
  | some decryptedData =>
    match sweFileBundleC.dec decryptedData with
    | some (bundle, []) => .ok bundle
    | _ => .error decryptionFailedMessage

/-!
## Identity & signing (`createProfileCard` / `verifyProfileCard`)

ECDSA P-256 is modelled as an ideal signature scheme: a signature is the
pair of the signer's public key and the signed message, verification checks
exactly those, and the public key of a private key is computed by an
injective-by-construction derivation.
-/

/-- The public key determined by an ECDSA private key (ideal model). -/
def ecdsaPublicOf (privateKey : Jwk) : Jwk :=
  ⟨("crv", "P-256") :: privateKey.fields⟩

/-- An ECDSA signature value (ideal model): determined by the signing key's
public counterpart and the exact message bytes. -/
structure Sig where
  signerPub : Jwk
  message : List Nat
deriving DecidableEq

/-- Model of `crypto.subtle.sign` with ECDSA/SHA-256. -/
def ecdsaSign (privateKey : Jwk) (message : List Nat) : Sig :=
  ⟨ecdsaPublicOf privateKey, message⟩

/-- Model of `crypto.subtle.verify` with ECDSA/SHA-256. -/
def ecdsaVerify (publicKey : Jwk) (signature : Sig) (message : List Nat) : Bool :=
  signature.signerPub = publicKey ∧ signature.message = message

/-- A signed profile card (`SignedProfileCard`).  The outer
`safeStringToBase64(JSON.stringify(card))` transport is invertible and is
modelled as the identity, so the card string is the card itself. -/
structure SignedProfileCard where
  v : String
  publicKey : Jwk
  data : B64
  sig : Sig
deriving DecidableEq

/-- `createProfileCard(account)` (cryptoService): encode the public profile
payload, sign the encoded payload bytes with the account's private signing
key, and package version tag, public key, payload and signature. -/
def createProfileCard (account : AccountSettings) : SignedProfileCard :=
  let profileData : ProfileCardData :=
    { userId := account.userId, username := account.username,
      avatarUrl := account.avatarUrl, status := account.status }
  let encodedData : B64 := profileCardDataC.enc profileData
  let signature := ecdsaSign account.signingKeyPair.privateKey encodedData
  { v := "wpc1", publicKey := account.signingKeyPair.publicKey,
    data := encodedData, sig := signature }

/-- The single uniform failure message of `verifyProfileCard`. -/
def invalidCardMessage : String :=
  "La tarjeta de perfil no es válida o está corrupta."

/-- `verifyProfileCard(cardString)` (cryptoService): check the version tag,
verify the embedded signature against exactly the encoded payload bytes,
and decode the payload only if verification succeeds.  All failures are
caught and surfaced as the one uniform `invalidCardMessage`; no field of an
unverified card is returned. -/
def verifyProfileCard (card : SignedProfileCard) : Except String Friend :=
  if card.v ≠ "wpc1" then .error invalidCardMessage
  else if ecdsaVerify card.publicKey card.sig card.data then
    match profileCardDataC.dec card.data with
    | some (profileData, []) =>
      .ok { userId := profileData.userId, username := profileData.username,
            avatarUrl := profileData.avatarUrl, status := profileData.status }
    | _ => .error invalidCardMessage
  else .error invalidCardMessage

/-!
## Session/vault lifecycle (App.tsx)

The React component state of `App` is modelled as a record, and each
handler as a state-transition function.  Modal dialogs are modelled as data
(the values their buttons capture), with one transition function per
button.
-/

inductive View
  | login | onboarding | home | reading | form | reviewing_pilot | settingsView
  | inspiration_board | fandom | universe_hub | password_recovery
  | weaverins_hub | story_preview | profile
deriving DecidableEq

/-- The modal dialogs relevant to the vault lifecycle, with the values
their action buttons capture. -/
inductive ModalContent
  | legacyVersion (bundle : SweFileBundle) (password : String)
  | quickAccessOffer (vaultBase64 : B64)
  | firstBackup
  | logoutConfirm
deriving DecidableEq

/-- The unencrypted `weaver_meta` record kept in localStorage. -/
structure QuickAccessMeta where
  username : String
  passkeyCredentialId : Option String
deriving DecidableEq

/-- The device-local storage: the `weaver_quick_access_vault` and
`weaver_meta` entries. -/
structure LocalStore where
  quickAccessVault : Option B64
  meta : Option QuickAccessMeta
deriving DecidableEq

/-- The React state of `App` relevant to the vault lifecycle. -/
structure AppState where
  view : View
  stories : List Story
  universes : List Universe
  presets : List GenerationPreset
  isLoading : Bool
  loadingMessage : String
  error : Option String
  notification : Option String
  modalContent : Option ModalContent
  isGuest : Bool
  isLegacyMode : Bool
  sessionPassword : Option String
  settings : AppSettings
  quickAccessMeta : Option QuickAccessMeta
  localStorage : LocalStore
deriving DecidableEq

/-- `DATA_VERSION` (App.tsx line 25). -/
def DATA_VERSION : ℚ := 7

/-- `loadDataBundle` (App.tsx lines 305-334).  The source merges each
settings category of the decrypted bundle over the hard-coded defaults with
JS object spread; on the fully-populated bundle objects of this embedding
the spread of a total loaded category over the defaults is the loaded
category, so each category merge reduces to the loaded one — except
`storage.quickAccessVault`, which the source explicitly overrides with the
value already present on this device.  It also refreshes the `weaver_meta`
record, sets the session password, and enters the home view; it does not
touch the `weaver_quick_access_vault` localStorage entry. -/
def loadDataBundle (s : AppState) (bundle : SweFileBundle) (password : String) :
    AppState :=
  let loadedSettings := bundle.settings
  let mergedSettings : AppSettings :=
    { loadedSettings with storage :=
        { loadedSettings.storage with
            quickAccessVault := s.settings.storage.quickAccessVault } }
  let newMeta : QuickAccessMeta :=
    { username := mergedSettings.account.username,
      passkeyCredentialId := mergedSettings.account.passkeyCredentialId }
  { s with
    stories := bundle.stories,
    presets := bundle.presets,
    universes := bundle.universes,
    settings := mergedSettings,
    sessionPassword := some password,
    quickAccessMeta := some newMeta,
    localStorage := { s.localStorage with meta := some newMeta },
    view := .home,
    isGuest := false }

/-- `decryptAndLoad` (App.tsx lines 336-399), up to the point where control
returns to the event loop: on decryption failure the uniform error is
surfaced; on an old (or missing, i.e. falsy) version the legacy-version
modal is shown and nothing is loaded; otherwise the bundle is loaded fully
and, if this device had no quick-access vault (the handler closes over the
pre-call `settings`), the quick-access offer modal is scheduled. -/
def decryptAndLoadStep (s : AppState) (vaultBuffer : List Nat)
    (password : String) : AppState :=
  let s1 := { s with isLoading := true,
                     loadingMessage := "Desbloqueando bóveda...", error := none }
  match decryptFromFile vaultBuffer password with
  | .error msg => { s1 with error := some msg, isLoading := false }
  | .ok bundle =>
    if bundle.version = 0 ∨ bundle.version < DATA_VERSION then
      { s1 with modalContent := some (.legacyVersion bundle password) }
    else
      let s2 := loadDataBundle { s1 with isLegacyMode := false } bundle password
      let s3 :=
        if s.settings.storage.quickAccessVault = none then
          { s2 with
            modalContent := some (.quickAccessOffer (arrayBufferToBase64 vaultBuffer)) }
        else s2
      { s3 with isLoading := false }

/-- The `Cancelar` button (and the close button) of the legacy-version
modal: dismiss the modal and stop the spinner, nothing else. -/
def legacyModalCancel (s : AppState) : AppState :=
  { s with modalContent := none, isLoading := false }

/-- The `Continuar (Modo Limitado)` button of the legacy-version modal:
enter legacy mode and load the bundle. -/
def legacyModalContinue (s : AppState) (bundle : SweFileBundle)
    (password : String) : AppState :=
  let s1 := loadDataBundle { s with modalContent := none, isLegacyMode := true }
    bundle password
  { s1 with notification := some "Modo de compatibilidad activado.",
            isLoading := false }

/-- The `Activar` button of the quick-access offer modal. -/
def quickAccessOfferAccept (s : AppState) (vaultBase64 : B64) : AppState :=
  { s with
    localStorage := { s.localStorage with quickAccessVault := some vaultBase64 },
    settings := { s.settings with storage :=
        { s.settings.storage with quickAccessVault := some vaultBase64 } },
    notification := some "¡Acceso Rápido activado!",
    modalContent := none }

/-- The `No, gracias` button of the quick-access offer modal. -/
def quickAccessOfferDecline (s : AppState) : AppState :=
  { s with modalContent := none }

/-- The bundle `handlePasswordRecovery` re-seals: the current in-memory
session data at the current `DATA_VERSION` (App.tsx lines 572-576). -/
def currentBundle (s : AppState) : SweFileBundle :=
  { stories := s.stories, presets := s.presets, universes := s.universes,
    settings := s.settings, readerSettings := s.settings.readerDefaults,
    version := DATA_VERSION }

/-- `handlePasswordRecovery(newPassword)` (App.tsx lines 569-589):
re-encrypt the current in-memory bundle under the new password, store the
result as the device's quick-access vault (both in localStorage and in the
session settings), and make the new password the session password. -/
def handlePasswordRecovery (s : AppState) (newPassword : String) (e : Entropy) :
    AppState :=
  let bundle := currentBundle s
  let encryptedBuffer := encryptForFile bundle newPassword e
  let vaultBase64 := arrayBufferToBase64 encryptedBuffer
  { s with
    loadingMessage := "Re-encriptando bóveda...",
    localStorage := { s.localStorage with quickAccessVault := some vaultBase64 },
    settings := { s.settings with storage :=
        { s.settings.storage with quickAccessVault := some vaultBase64 } },
    sessionPassword := some newPassword,
    notification := some "Contraseña restablecida y Acceso Rápido actualizado.",
    view := .home,
    isLoading := false }

/-!
## Password-recovery state machine (`PasswordRecovery`, App.tsx 137-218)

Steps: 0 = Hint, 1 = Questions, 2 = Reset.  The component state and the
user-interface events that can change it.
-/

/-- The `PasswordRecovery` component state. -/
structure RecoveryState where
  step : Nat
  answers : List String
  newPassword : String
  confirmPassword : String
deriving DecidableEq

/-- The component's initial state: step 0, one empty answer per configured
question. -/
def initialRecoveryState (qs : List SecurityQuestion) : RecoveryState :=
  ⟨0, List.replicate qs.length "", "", ""⟩

/-- The user-interface events of the recovery flow: the step-0 button, the
answer inputs, the verify button, and the step-2 password inputs. -/
inductive RecoveryEvent
  | proceedToQuestions
  | editAnswer (i : Nat) (value : String)
  | submitAnswers
  | editNewPassword (value : String)
  | editConfirmPassword (value : String)
deriving DecidableEq

/-- The generic alert shown when any answer fails (App.tsx line 156). -/
def recoveryAlertMessage : String := "Una o más respuestas son incorrectas."

/-- The loop of `verifyAnswers`: every submitted answer's hash equals the
stored `answerHash` of its question. -/
def answersMatch (qs : List SecurityQuestion) (answers : List String) : Bool :=
  (answers.zip qs).all fun p => hashText p.1 = p.2.answerHash

/-- One step of the recovery state machine; returns the next state and the
alert message emitted, if any.  `submitAnswers` follows `verifyAnswers`
(App.tsx 149-161): a length mismatch returns silently; the first hash
mismatch alerts generically and stops; only when all hashes match does the
machine advance to the Reset step. -/
def recoveryStep (qs : List SecurityQuestion) (st : RecoveryState)
    (ev : RecoveryEvent) : RecoveryState × Option String :=
  match ev with
  | .proceedToQuestions =>
    if st.step = 0 then ({ st with step := 1 }, none) else (st, none)
  | .editAnswer i v =>
    if st.step = 1 then ({ st with answers := st.answers.set i v }, none)
    else (st, none)
  | .submitAnswers =>
    if st.step = 1 then
      if st.answers.length ≠ qs.length then (st, none)
      else if answersMatch qs st.answers then ({ st with step := 2 }, none)
      else (st, some recoveryAlertMessage)
    else (st, none)
  | .editNewPassword v =>
    if st.step = 2 then ({ st with newPassword := v }, none) else (st, none)
  | .editConfirmPassword v =>
    if st.step = 2 then ({ st with confirmPassword := v }, none) else (st, none)

/-- Run the recovery machine over a sequence of events from a state. -/
def runRecovery (qs : List SecurityQuestion) (st : RecoveryState)
    (evs : List RecoveryEvent) : RecoveryState :=
  evs.foldl (fun s e => (recoveryStep qs s e).1) st

/-!
## Concrete sample values

Small concrete inputs used to evaluate the embedded operations in witness
theorems.
-/

def samplePrivateKey : Jwk := ⟨[("kty", "EC"), ("d", "k1")]⟩

def sampleSecurityQuestions : List SecurityQuestion :=
  [⟨"¿Nombre de tu primera mascota?", hashText "Rex"⟩,
   ⟨"¿Ciudad favorita?", hashText "Paris"⟩]

def sampleAccount : AccountSettings :=
  { userId := "u1", username := "alice", avatarUrl := "", status := "hola",
    tier := "free", tierExpiresAt := none, autoRenewTier := false,
    creatorArchetype := none, favoriteGenres := [], favoriteFandoms := "",
    favoriteWritingStyle := "Cinematográfico", favoriteCharacters := "",
    weaverins := 500, savingsGoal := 0, stingyMode := false, purchases := [],
    quests := ⟨false, false, false, false⟩,
    signingKeyPair := ⟨samplePrivateKey, ecdsaPublicOf samplePrivateKey⟩,
    achievements := [], avatarFrame := "none", passwordHint := some "pista",
    securityQuestions := some sampleSecurityQuestions,
    isAgeVerified := none, matureContentPIN := none, writerRank := some "C",
    rankPoints := some 0, dailyQuests := some [], parentalControls := none,
    passkeyCredentialId := none, passkeyPublicKey := none }

def sampleGeneral : GeneralSettings :=
  { appLanguage := "Español", startupView := "Biblioteca",
    timezone := "America/New_York", uiTheme := "dark", uiMode := "standard",
    showTooltips := "basic", lastRead := none,
    notificationSettings := ⟨true, true, true, false⟩,
    matureContentFilter := "on" }

def sampleAI : AIGenerationSettings :=
  { defaultWritingStyle := "Cinematográfico",
    defaultPointOfView := "Tercera Persona Limitada", aiLanguage := "Español",
    creativeFreedom := 75, storyContinuityLevel := 80,
    branchingComplexity := 50, defaultIllustrationStyle := "Fantasía Digital",
    defaultNegativePrompt := "texto", autoGenerateTags := true,
    imageQuality := "Standard", plugins := [], defaultComplexity := none }

def sampleReaderDefaults : ReaderDefaultSettings :=
  { font := "serif", fontSize := 18, theme := "dark",
    lineHeight := mkRat 7 4, justifyText := false, showProgressBar := true,
    showTimeLeft := true, autoLoadNextChapter := false, tapNavigation := true,
    enableBionicReading := false, cinemaMode := some false,
    dynamicTypography := some true, dynamicBackgrounds := some true,
    showMiniHud := some true }

def sampleAccessibility : AccessibilitySettings :=
  { highContrast := false, dyslexiaFriendlyFont := false,
    reduceAnimations := false, textToSpeech := true, ttsVoice := "default",
    ttsSpeed := 1, ttsPitch := 1, voiceNavigation := false }

def sampleStorage : StorageSettings :=
  { autoSaveEnabled := false, autoSaveInterval := 60,
    maxCacheSizeMB := 500, autoClearCache := false, quickAccessVault := none }

def sampleConnection : ConnectionSettings :=
  { downloadIllustrationsOnWifiOnly := false,
    syncOnWifiOnly := true, dataSaverMode := false }

def sampleSocial : SocialSettings :=
  { profileVisibility := "Privado", showOnlineStatus := true,
    allowFriendRequests := true, allowStoryComments := "friends",
    friendsList := [], blockedUsers := [] }

def sampleKeybindings : KeybindingsSettings :=
  { nextPage := "ArrowRight", prevPage := "ArrowLeft",
    toggleFocusMode := "f", openSettings := "ctrl+s", newStory := "ctrl+n",
    commandPalette := "ctrl+k" }

def sampleSettings : AppSettings :=
  { general := sampleGeneral, account := sampleAccount, ai := sampleAI,
    readerDefaults := sampleReaderDefaults,
    accessibility := sampleAccessibility, storage := sampleStorage,
    connection := sampleConnection, social := sampleSocial,
    privacy := ⟨true, true⟩, keybindings := sampleKeybindings }

def sampleBundle : SweFileBundle :=
  { stories := [], presets := [], settings := sampleSettings, universes := [],
    readerSettings := sampleSettings.readerDefaults, version := DATA_VERSION }

/-- A bundle of an older data version (for the legacy path). -/
def sampleLegacyBundle : SweFileBundle := { sampleBundle with version := 5 }

/-- A bundle of a newer, unknown data version. -/
def sampleForwardBundle : SweFileBundle := { sampleBundle with version := 8 }

def sampleEntropy : Entropy :=
  ⟨List.replicate 16 7, List.replicate 12 9⟩

def sampleEntropy2 : Entropy :=
  ⟨List.replicate 16 8, List.replicate 12 3⟩

/-- A logged-out application state on a device with no quick-access cache. -/
def sampleLoggedOutState : AppState :=
  { view := .login, stories := [], universes := [], presets := [],
    isLoading := false, loadingMessage := "", error := none,
    notification := none, modalContent := none, isGuest := false,
    isLegacyMode := false, sessionPassword := none, settings := sampleSettings,
    quickAccessMeta := none, localStorage := ⟨none, none⟩ }

/-- A logged-in application state holding the sample session. -/
def sampleActiveState : AppState :=
  { sampleLoggedOutState with view := .home, sessionPassword := some "OldPass123" }

/-!
## Helper lemmas: codecs and the ideal cipher
-/

/-- Encodings are injective (decoding inverts them). -/
theorem codec_enc_injective (c : Codec α) {a b : α} (h : c.enc a = c.enc b) :
    a = b := by
  have ha := c.complete a []
  have hb := c.complete b []
  rw [List.append_nil] at ha hb
  rw [h, hb] at ha
  exact ((Prod.ext_iff.mp (Option.some.inj ha)).1).symm

/-- Decoding a bare encoding consumes it exactly. -/
theorem codec_dec_enc (c : Codec α) (a : α) : c.dec (c.enc a) = some (a, []) := by
  have h := c.complete a []
  rwa [List.append_nil] at h

/-- Changing one in-range element to a different value changes the list. -/
theorem set_ne_of_ne {l : List Nat} {i v : Nat} (hi : i < l.length)
    (hv : v ≠ l[i]) : l.set i v ≠ l := by
  intro h
  have h1 : (l.set i v)[i]? = some v := List.getElem?_set_self hi
  rw [h] at h1
  have h2 : l[i]? = some l[i] := List.getElem?_eq_getElem hi
  rw [h2] at h1
  exact hv (Option.some.inj h1).symm

/-- The ideal cipher inverts itself on the genuine key and iv. -/
theorem gcmDecrypt_gcmEncrypt (key : DerivedKey) (iv pt : List Nat) :
    gcmDecrypt key iv (gcmEncrypt key iv pt) = some pt := by
  have hlen : (gcmBodyC.enc (key, iv, pt) ++ gcmBodyC.enc (key, iv, pt)).length
      = 2 * (gcmBodyC.enc (key, iv, pt)).length := by
    simp [Nat.two_mul]
  simp [gcmEncrypt, gcmDecrypt, hlen, List.take_left, List.drop_left,
    codec_dec_enc]

/-- The ideal cipher rejects decryption under a wrong key or wrong iv. -/
theorem gcmDecrypt_mismatch (key2 : DerivedKey) (iv2 : List Nat)
    (key : DerivedKey) (iv pt : List Nat) (h : ¬(key = key2 ∧ iv = iv2)) :
    gcmDecrypt key2 iv2 (gcmEncrypt key iv pt) = none := by
  have hlen : (gcmBodyC.enc (key, iv, pt) ++ gcmBodyC.enc (key, iv, pt)).length
      = 2 * (gcmBodyC.enc (key, iv, pt)).length := by
    simp [Nat.two_mul]
  simp [gcmEncrypt, gcmDecrypt, hlen, List.take_left, List.drop_left,
    codec_dec_enc, h]

/-- The ideal cipher rejects any ciphertext with one element changed (under
any key and iv). -/
theorem gcmDecrypt_set (key2 : DerivedKey) (iv2 : List Nat) (key : DerivedKey)
    (iv pt : List Nat) (j v : Nat) (hj : j < (gcmEncrypt key iv pt).length)
    (hv : v ≠ (gcmEncrypt key iv pt)[j]) :
    gcmDecrypt key2 iv2 ((gcmEncrypt key iv pt).set j v) = none := by
  show gcmDecrypt key2 iv2
    (((gcmBodyC.enc (key, iv, pt)).length ::
      (gcmBodyC.enc (key, iv, pt) ++ gcmBodyC.enc (key, iv, pt))).set j v) = none
  generalize hb : gcmBodyC.enc (key, iv, pt) = b
  rcases j with _ | j'
  · have hvn : v ≠ b.length := by
      simpa [gcmEncrypt, hb] using hv
    have hcond : ¬((b ++ b).length = 2 * v) := by
      simp only [List.length_append]
      omega
    simp only [List.set_cons_zero]
    simp [gcmDecrypt, hcond]
    intro h
    exact absurd (show v = b.length by omega) hvn
  · have hj' : j' < (b ++ b).length := by
      have := hj
      simp only [gcmEncrypt, hb, List.length_cons] at this
      omega
    have hvj : v ≠ (b ++ b)[j'] := by
      have : (gcmEncrypt key iv pt)[j' + 1] = (b ++ b)[j'] := by
        simp [gcmEncrypt, hb]
      rwa [this] at hv
    have hlen2 : (b ++ b).length = 2 * b.length := by simp [Nat.two_mul]
    by_cases hcase : j' < b.length
    · have hsplit : (b ++ b).set j' v = b.set j' v ++ b :=
        List.set_append_left _ _ hcase
      have hset : (b.set j' v).length = b.length := by simp
      have hne : b.set j' v ≠ b := by
        apply set_ne_of_ne hcase
        rwa [List.getElem_append_left hcase] at hvj
      simp only [List.set_cons_succ, hsplit]
      have hlen3 : (b.set j' v ++ b).length = 2 * b.length := by
        simp [Nat.two_mul]
      simp [gcmDecrypt, hlen3, List.take_left' hset, List.drop_left' hset, hne]
    · have hge : b.length ≤ j' := Nat.le_of_not_lt hcase
      have hsplit : (b ++ b).set j' v = b ++ b.set (j' - b.length) v :=
        List.set_append_right _ _ hge
      have hlt2 : j' - b.length < b.length := by
        simp only [List.length_append] at hj'
        omega
      have hne : b ≠ b.set (j' - b.length) v := by
        have hvj2 : v ≠ b[j' - b.length] := by
          rwa [List.getElem_append_right hge] at hvj
        exact fun h => set_ne_of_ne hlt2 hvj2 h.symm
      simp only [List.set_cons_succ, hsplit]
      have hlen3 : (b ++ b.set (j' - b.length) v).length = 2 * b.length := by
        simp [Nat.two_mul]
      simp [gcmDecrypt, hlen3, List.take_left, List.drop_left, hne]

/-- The ideal cipher rejects any strict prefix of a ciphertext (under any
key and iv). -/
theorem gcmDecrypt_take (key2 : DerivedKey) (iv2 : List Nat) (key : DerivedKey)
    (iv pt : List Nat) (m : Nat) (hm : m < (gcmEncrypt key iv pt).length) :
    gcmDecrypt key2 iv2 ((gcmEncrypt key iv pt).take m) = none := by
  show gcmDecrypt key2 iv2
    ((((gcmBodyC.enc (key, iv, pt)).length ::
      (gcmBodyC.enc (key, iv, pt) ++ gcmBodyC.enc (key, iv, pt))).take m)) = none
  generalize hb : gcmBodyC.enc (key, iv, pt) = b
  rcases m with _ | m'
  · simp [gcmDecrypt]
  · have hm' : m' < b.length + b.length := by
      have := hm
      simp only [gcmEncrypt, hb, List.length_cons, List.length_append] at this
      omega
    rw [List.take_succ_cons]
    have hcond : ¬(((b ++ b).take m').length = 2 * b.length) := by
      simp only [List.length_take, List.length_append]
      omega
    simp [gcmDecrypt, List.length_take, hcond]
    intro h
    exact absurd h (by omega)

/-- `decryptFromFile` is `decryptCore` applied to the buffer's slices. -/
theorem decryptFromFile_eq_core (fileBuffer : List Nat) (password : String) :
    decryptFromFile fileBuffer password =
      decryptCore (getEncryptionKey password (fileBuffer.take 16))
        ((fileBuffer.drop 16).take 12) (fileBuffer.drop 28) := rfl

/-- Slicing a `salt ‖ iv ‖ ct` buffer recovers its parts. -/
theorem decryptFromFile_append (salt iv ct : List Nat) (password : String)
    (hs : salt.length = 16) (hiv : iv.length = 12) :
    decryptFromFile (salt ++ iv ++ ct) password =
      decryptCore (getEncryptionKey password salt) iv ct := by
  rw [decryptFromFile_eq_core, List.append_assoc, List.take_left' hs,
    List.drop_left' hs, List.take_left' hiv, ← List.append_assoc,
    List.drop_left' (by simp [hs, hiv])]

/-- `encryptForFile` unfolded as a concatenation. -/
theorem encryptForFile_eq (data : SweFileBundle) (password : String)
    (e : Entropy) :
    encryptForFile data password e =
      e.salt ++ e.iv ++
        gcmEncrypt (getEncryptionKey password e.salt) e.iv
          (sweFileBundleC.enc data) := by
  simp [encryptForFile, List.append_assoc]

/-- A failed cipher authentication surfaces as the uniform error. -/
theorem decryptCore_none (key : DerivedKey) (iv ct : List Nat)
    (h : gcmDecrypt key iv ct = none) :
    decryptCore key iv ct = .error decryptionFailedMessage := by
  simp [decryptCore, h]

/-- Decrypting a genuine ciphertext of a bundle yields the bundle. -/
theorem decryptCore_ok (key : DerivedKey) (iv : List Nat) (B : SweFileBundle) :
    decryptCore key iv (gcmEncrypt key iv (sweFileBundleC.enc B)) = .ok B := by
  simp [decryptCore, gcmDecrypt_gcmEncrypt, codec_dec_enc]

/-- The first 16 bytes of a sealed file are the drawn salt. -/
theorem encryptForFile_take16 (B : SweFileBundle) (P : String) (e : Entropy)
    (hs : e.salt.length = 16) :
    (encryptForFile B P e).take 16 = e.salt := by
  rw [encryptForFile_eq, List.append_assoc]
  exact List.take_left' hs

/-- Bytes 16..28 of a sealed file are the drawn iv. -/
theorem encryptForFile_iv_slice (B : SweFileBundle) (P : String) (e : Entropy)
    (hs : e.salt.length = 16) (hiv : e.iv.length = 12) :
    ((encryptForFile B P e).drop 16).take 12 = e.iv := by
  rw [encryptForFile_eq, List.append_assoc, List.drop_left' hs,
    List.take_left' hiv]

/-- Bytes 28.. of a sealed file are the AES-GCM ciphertext. -/
theorem encryptForFile_drop28 (B : SweFileBundle) (P : String) (e : Entropy)
    (hs : e.salt.length = 16) (hiv : e.iv.length = 12) :
    (encryptForFile B P e).drop 28 =
      gcmEncrypt (getEncryptionKey P e.salt) e.iv (sweFileBundleC.enc B) := by
  rw [encryptForFile_eq]
  exact List.drop_left' (by simp [hs, hiv])

/-- The length of a sealed file is 28 plus the ciphertext length. -/
theorem encryptForFile_length (B : SweFileBundle) (P : String) (e : Entropy)
    (hs : e.salt.length = 16) (hiv : e.iv.length = 12) :
    (encryptForFile B P e).length =
      28 + (gcmEncrypt (getEncryptionKey P e.salt) e.iv
        (sweFileBundleC.enc B)).length := by
  rw [encryptForFile_eq]
  simp [hs, hiv]
  omega

/-- A ciphertext is never empty. -/
theorem gcmEncrypt_length_pos (key : DerivedKey) (iv pt : List Nat) :
    0 < (gcmEncrypt key iv pt).length := by
  simp [gcmEncrypt]

/-- The ideal cipher's output determines its key, iv and plaintext. -/
theorem gcmEncrypt_injective (k1 k2 : DerivedKey) (iv1 iv2 pt1 pt2 : List Nat)
    (h : gcmEncrypt k1 iv1 pt1 = gcmEncrypt k2 iv2 pt2) :
    k1 = k2 ∧ iv1 = iv2 ∧ pt1 = pt2 := by
  unfold gcmEncrypt at h
  injection h with hlen happ
  have hb : gcmBodyC.enc (k1, iv1, pt1) = gcmBodyC.enc (k2, iv2, pt2) := by
    have h1 : gcmBodyC.enc (k1, iv1, pt1) =
        (gcmBodyC.enc (k1, iv1, pt1) ++ gcmBodyC.enc (k1, iv1, pt1)).take
          (gcmBodyC.enc (k1, iv1, pt1)).length := (List.take_left _ _).symm
    rw [h1, happ, hlen, List.take_left]
  have := codec_enc_injective gcmBodyC hb
  exact ⟨congrArg Prod.fst this, congrArg (fun t => t.2.1) this,
    congrArg (fun t => t.2.2) this⟩

/-- Decrypting a sealed file with the sealing password recovers the
bundle. -/
theorem decrypt_encrypt_ok (B : SweFileBundle) (P : String) (e : Entropy)
    (hs : e.salt.length = 16) (hiv : e.iv.length = 12) :
    decryptFromFile (encryptForFile B P e) P = .ok B := by
  rw [encryptForFile_eq, decryptFromFile_append _ _ _ _ hs hiv, decryptCore_ok]

/-- Decrypting a sealed file with any other password fails uniformly. -/
theorem decrypt_encrypt_wrong_password (B : SweFileBundle) (P : String)
    (e : Entropy) (hs : e.salt.length = 16) (hiv : e.iv.length = 12)
    (P2 : String) (hP2 : P2 ≠ P) :
    decryptFromFile (encryptForFile B P e) P2
      = .error decryptionFailedMessage := by
  rw [encryptForFile_eq, decryptFromFile_append _ _ _ _ hs hiv]
  apply decryptCore_none
  apply gcmDecrypt_mismatch
  intro hcontra
  exact hP2 (congrArg DerivedKey.password hcontra.1).symm

/-!
## Claims C1, C2, C4: the vault cipher
-/

/-- Claim C1: Round-trip — for every vault bundle `B` and password `P`, and
every 16-byte salt / 12-byte iv drawn by the call, decrypting the sealed
output with the same password returns the original bundle:
`decryptFromFile(encryptForFile(B, P), P) = B` (structural equality after
the serialization round-trip). -/
theorem C1_roundtrip (B : SweFileBundle) (P : String) (e : Entropy)
    (hs : e.salt.length = 16) (hiv : e.iv.length = 12) :
    decryptFromFile (encryptForFile B P e) P = .ok B :=
  decrypt_encrypt_ok B P e hs hiv

/-- Witness for C1 at a concrete bundle, password and entropy. -/
theorem C1_roundtrip_witness :
    decryptFromFile (encryptForFile sampleBundle "CorrectHorse1" sampleEntropy)
      "CorrectHorse1" = .ok sampleBundle :=
  C1_roundtrip sampleBundle "CorrectHorse1" sampleEntropy (by decide) (by decide)

/-- Claim C2: Uniform decryption failure — for every sealed output of
`encryptForFile`, calling `decryptFromFile` with a different password, or on
the bytes with any single byte of the iv/ciphertext region (offset 16
onwards) flipped, or on a strict truncated prefix, always yields the one
uniform decryption-failed error: it never returns a bundle, never returns
corrupted-but-parseable data, and the error value never distinguishes a
wrong password from a corrupt file. -/
theorem C2_uniform_failure (B : SweFileBundle) (P : String) (e : Entropy)
    (hs : e.salt.length = 16) (hiv : e.iv.length = 12) :
    (∀ P2, P2 ≠ P →
      decryptFromFile (encryptForFile B P e) P2
        = .error decryptionFailedMessage) ∧
    (∀ i v, 16 ≤ i → i < (encryptForFile B P e).length →
      v ≠ (encryptForFile B P e).getD i 0 →
      decryptFromFile ((encryptForFile B P e).set i v) P
        = .error decryptionFailedMessage) ∧
    (∀ m, m < (encryptForFile B P e).length →
      decryptFromFile ((encryptForFile B P e).take m) P
        = .error decryptionFailedMessage) := by
  refine ⟨?_, ?_, ?_⟩
  · -- wrong password
    intro P2 hP2
    exact decrypt_encrypt_wrong_password B P e hs hiv P2 hP2
  · -- single byte flipped in the iv/ciphertext region
    intro i v h16 hi hv
    generalize hD : (encryptForFile B P e).getD i 0 = D at hv
    have hvq : (encryptForFile B P e)[i]? = some D := by
      rw [← hD]
      simp [List.getD_eq_getElem?_getD, List.getElem?_eq_getElem hi]
    rw [encryptForFile_eq] at hvq hi ⊢
    by_cases h28 : i < 28
    · -- iv region
      rw [List.append_assoc] at hvq ⊢
      have hsle : e.salt.length ≤ i := by omega
      have hivlt : i - e.salt.length < e.iv.length := by omega
      rw [List.getElem?_append_right hsle, List.getElem?_append_left hivlt] at hvq
      have hvE : v ≠ e.iv[i - e.salt.length] := by
        rw [List.getElem?_eq_getElem hivlt] at hvq
        intro hcon
        exact hv (by rw [hcon]; exact Option.some.inj hvq)
      rw [List.set_append_right _ _ hsle, List.set_append_left _ _ hivlt,
        ← List.append_assoc]
      rw [decryptFromFile_append _ _ _ _ hs (by simp [hiv])]
      apply decryptCore_none
      apply gcmDecrypt_mismatch
      intro hcontra
      exact set_ne_of_ne hivlt hvE hcontra.2.symm
    · -- ciphertext region
      have hsle : (e.salt ++ e.iv).length ≤ i := by
        simp only [List.length_append, hs, hiv]
        omega
      have hctlt : i - (e.salt ++ e.iv).length <
          (gcmEncrypt (getEncryptionKey P e.salt) e.iv
            (sweFileBundleC.enc B)).length := by
        simp only [List.length_append] at hi ⊢
        omega
      rw [List.getElem?_append_right hsle] at hvq
      have hvE : v ≠ (gcmEncrypt (getEncryptionKey P e.salt) e.iv
          (sweFileBundleC.enc B))[i - (e.salt ++ e.iv).length] := by
        rw [List.getElem?_eq_getElem hctlt] at hvq
        intro hcon
        exact hv (by rw [hcon]; exact Option.some.inj hvq)
      rw [List.set_append_right _ _ hsle]
      rw [decryptFromFile_append _ _ _ _ hs hiv]
      apply decryptCore_none
      exact gcmDecrypt_set _ _ _ _ _ _ _ hctlt hvE
  · -- truncated prefix
    intro m hm
    rw [decryptFromFile_eq_core]
    apply decryptCore_none
    have hct : ((encryptForFile B P e).take m).drop 28
        = (gcmEncrypt (getEncryptionKey P e.salt) e.iv
            (sweFileBundleC.enc B)).take (m - 28) := by
      rw [List.drop_take, encryptForFile_drop28 B P e hs hiv]
    rw [hct]
    apply gcmDecrypt_take
    have hlen := encryptForFile_length B P e hs hiv
    have hpos := gcmEncrypt_length_pos (getEncryptionKey P e.salt) e.iv
      (sweFileBundleC.enc B)
    omega

/-- Witness for C2: the wrong-password case at a concrete sealed output. -/
theorem C2_uniform_failure_witness :
    decryptFromFile (encryptForFile sampleBundle "CorrectHorse1" sampleEntropy)
      "WrongPass" = .error decryptionFailedMessage :=
  (C2_uniform_failure sampleBundle "CorrectHorse1" sampleEntropy
    (by decide) (by decide)).1 "WrongPass" (by decide)

/-- Claim C4: Salt/IV freshness — every call to `encryptForFile` uses the
salt and iv drawn by that call, so two invocations with the identical bundle
and identical password whose random draws differ produce outputs that
differ in the salt region, the iv region, and the ciphertext region (and so
differ as whole buffers): `seal(B,P) ≠ seal(B,P)` across two invocations. -/
theorem C4_freshness (B : SweFileBundle) (P : String) (e1 e2 : Entropy)
    (hs1 : e1.salt.length = 16) (hiv1 : e1.iv.length = 12)
    (hs2 : e2.salt.length = 16) (hiv2 : e2.iv.length = 12)
    (hsalt : e1.salt ≠ e2.salt) (hivne : e1.iv ≠ e2.iv) :
    (encryptForFile B P e1).take 16 ≠ (encryptForFile B P e2).take 16 ∧
    ((encryptForFile B P e1).drop 16).take 12
      ≠ ((encryptForFile B P e2).drop 16).take 12 ∧
    (encryptForFile B P e1).drop 28 ≠ (encryptForFile B P e2).drop 28 ∧
    encryptForFile B P e1 ≠ encryptForFile B P e2 := by
  have h1 : (encryptForFile B P e1).take 16 ≠ (encryptForFile B P e2).take 16 := by
    rw [encryptForFile_take16 B P e1 hs1, encryptForFile_take16 B P e2 hs2]
    exact hsalt
  have h2 : ((encryptForFile B P e1).drop 16).take 12
      ≠ ((encryptForFile B P e2).drop 16).take 12 := by
    rw [encryptForFile_iv_slice B P e1 hs1 hiv1,
      encryptForFile_iv_slice B P e2 hs2 hiv2]
    exact hivne
  have h3 : (encryptForFile B P e1).drop 28 ≠ (encryptForFile B P e2).drop 28 := by
    rw [encryptForFile_drop28 B P e1 hs1 hiv1,
      encryptForFile_drop28 B P e2 hs2 hiv2]
    intro hcontra
    exact hivne (gcmEncrypt_injective _ _ _ _ _ _ hcontra).2.1
  exact ⟨h1, h2, h3, fun h => h1 (congrArg (List.take 16) h)⟩

/-- Witness for C4 at a concrete bundle, password and two entropies. -/
theorem C4_freshness_witness :
    encryptForFile sampleBundle "CorrectHorse1" sampleEntropy
      ≠ encryptForFile sampleBundle "CorrectHorse1" sampleEntropy2 :=
  (C4_freshness sampleBundle "CorrectHorse1" sampleEntropy sampleEntropy2
    (by decide) (by decide) (by decide) (by decide) (by decide)
    (by decide)).2.2.2

/-!
## Helper lemmas: text normalization (`hashText`)
-/

/-- `getD` at an in-range index is the element. -/
theorem listGetD_eq (l : List Nat) (i : Nat) (hi : i < l.length) :
    l.getD i 0 = l[i] := by
  simp [List.getD_eq_getElem?_getD, List.getElem?_eq_getElem hi]

theorem toLower_eq_of_upper {c : Char} (h65 : 65 ≤ c.toNat)
    (h90 : c.toNat ≤ 90) : Char.toLower c = Char.ofNat (c.toNat + 32) := by
  simp only [Char.toLower]
  rw [if_pos ⟨h65, h90⟩]

theorem toLower_eq_self_of_not {c : Char}
    (h : ¬(65 ≤ c.toNat ∧ c.toNat ≤ 90)) : Char.toLower c = c := by
  simp only [Char.toLower]
  rw [if_neg h]

/-- The lowercase image of an upper-case letter is not an upper-case
letter (checked over the 26 cases). -/
theorem ofNat_add32_not_upper :
    ∀ n, n < 91 → 65 ≤ n →
      ¬(65 ≤ (Char.ofNat (n + 32)).toNat ∧ (Char.ofNat (n + 32)).toNat ≤ 90) := by
  decide

/-- The lowercase image of an upper-case letter is not whitespace. -/
theorem ofNat_add32_not_ws :
    ∀ n, n < 91 → 65 ≤ n → (Char.ofNat (n + 32)).isWhitespace = false := by
  decide

/-- An upper-case letter is not whitespace. -/
theorem not_whitespace_of_upper {c : Char} (h65 : 65 ≤ c.toNat)
    (_h90 : c.toNat ≤ 90) : c.isWhitespace = false := by
  have h1 : c ≠ ' ' := fun hc => by
    rw [hc] at h65
    exact absurd h65 (by decide)
  have h2 : c ≠ '\t' := fun hc => by
    rw [hc] at h65
    exact absurd h65 (by decide)
  have h3 : c ≠ '\r' := fun hc => by
    rw [hc] at h65
    exact absurd h65 (by decide)
  have h4 : c ≠ '\n' := fun hc => by
    rw [hc] at h65
    exact absurd h65 (by decide)
  simp [Char.isWhitespace, h1, h2, h3, h4]

/-- Lowercasing does not change whether a character is whitespace. -/
theorem isWhitespace_toLower (c : Char) :
    (Char.toLower c).isWhitespace = c.isWhitespace := by
  by_cases h : 65 ≤ c.toNat ∧ c.toNat ≤ 90
  · rw [toLower_eq_of_upper h.1 h.2, ofNat_add32_not_ws c.toNat (by omega) h.1,
      not_whitespace_of_upper h.1 h.2]
  · rw [toLower_eq_self_of_not h]

/-- Lowercasing is idempotent. -/
theorem toLower_toLower (c : Char) :
    Char.toLower (Char.toLower c) = Char.toLower c := by
  by_cases h : 65 ≤ c.toNat ∧ c.toNat ≤ 90
  · rw [toLower_eq_of_upper h.1 h.2,
      toLower_eq_self_of_not (ofNat_add32_not_upper c.toNat (by omega) h.1)]
  · rw [toLower_eq_self_of_not h]
    exact toLower_eq_self_of_not h

/-- The head surviving an `rdropWhile` is the head of the original list. -/
theorem head?_rdropWhile_prefix {p : Char → Bool} (M : List Char) {x : Char}
    (h : (List.rdropWhile p M).head? = some x) : M.head? = some x := by
  obtain ⟨t, ht⟩ := List.rdropWhile_prefix p M
  cases hR : List.rdropWhile p M with
  | nil => rw [hR] at h; cases h
  | cons a R2 =>
    rw [hR] at h ht
    rw [← ht]
    simpa using h

/-- A trimmed list has no leading whitespace left to drop. -/
theorem dropWhile_trim (l : List Char) :
    List.dropWhile Char.isWhitespace (List.rdropWhile Char.isWhitespace
      (List.dropWhile Char.isWhitespace l))
    = List.rdropWhile Char.isWhitespace (List.dropWhile Char.isWhitespace l) := by
  cases hR : List.rdropWhile Char.isWhitespace
      (List.dropWhile Char.isWhitespace l) with
  | nil => simp
  | cons a R2 =>
    have hhead : (List.dropWhile Char.isWhitespace l).head? = some a :=
      head?_rdropWhile_prefix _ (by rw [hR]; rfl)
    have hws : Char.isWhitespace a = false := by
      have hh := List.head?_dropWhile_not Char.isWhitespace l
      rw [hhead] at hh
      simpa using hh
    simp [List.dropWhile_cons, hws]

/-- Trimming is idempotent. -/
theorem trim_idem (l : List Char) :
    List.rdropWhile Char.isWhitespace (List.dropWhile Char.isWhitespace
      (List.rdropWhile Char.isWhitespace (List.dropWhile Char.isWhitespace l)))
    = List.rdropWhile Char.isWhitespace (List.dropWhile Char.isWhitespace l) := by
  rw [dropWhile_trim, List.rdropWhile_idempotent]

/-- Trimming commutes with lowercasing. -/
theorem trim_map_toLower (l : List Char) :
    List.rdropWhile Char.isWhitespace
      (List.dropWhile Char.isWhitespace (l.map Char.toLower))
    = (List.rdropWhile Char.isWhitespace
        (List.dropWhile Char.isWhitespace l)).map Char.toLower := by
  have hcomp : Char.isWhitespace ∘ Char.toLower = Char.isWhitespace :=
    funext isWhitespace_toLower
  rw [List.dropWhile_map, hcomp]
  unfold List.rdropWhile
  rw [← List.map_reverse, List.dropWhile_map, hcomp, ← List.map_reverse]

/-!
## Claim C8: security-answer hash normalization
-/

/-- Claim C8: `hashText` normalizes its input by trimming whitespace and
lowercasing before applying the one-way hash, so for every string `s`,
`hashText s = hashText (trim+lowercase s)`; in particular the answer hash
of `"Rex"` equals the answer hash of `"  rex  "`. -/
theorem C8_hash_normalization :
    (∀ s : String, hashText s = hashText (jsToLowerCase (jsTrim s))) ∧
    hashText "Rex" = hashText "  rex  " := by
  constructor
  · intro s
    have hdata : (jsToLowerCase (jsTrim (jsToLowerCase (jsTrim s)))).data
        = (jsToLowerCase (jsTrim s)).data := by
      show (jsTrim (jsToLowerCase (jsTrim s))).data.map Char.toLower
          = ((jsTrim s).data).map Char.toLower
      have h1 : (jsTrim (jsToLowerCase (jsTrim s))).data
          = ((jsTrim s).data).map Char.toLower := by
        show List.rdropWhile Char.isWhitespace (List.dropWhile Char.isWhitespace
            (((jsTrim s).data).map Char.toLower)) = _
        rw [trim_map_toLower]
        show (List.rdropWhile Char.isWhitespace (List.dropWhile Char.isWhitespace
            (List.rdropWhile Char.isWhitespace (List.dropWhile Char.isWhitespace
              s.data)))).map Char.toLower = _
        rw [trim_idem]
        rfl
      rw [h1, List.map_map, show Char.toLower ∘ Char.toLower = Char.toLower
        from funext toLower_toLower]
    show arrayBufferToBase64 (sha256 (textEncode (jsToLowerCase (jsTrim s))))
      = arrayBufferToBase64 (sha256 (textEncode
          (jsToLowerCase (jsTrim (jsToLowerCase (jsTrim s))))))
    unfold textEncode
    rw [hdata]
  · decide

/-!
## Claim C5: profile-card tamper rejection
-/

/-- Claim C5: `verifyProfileCard` checks the embedded signature over exactly
the encoded payload bytes: for any account whose stored signing key pair is
genuine, the card produced by `createProfileCard` verifies to exactly the
public profile fields; mutating any element of the embedded `data` field, or
substituting any different public key while keeping the original signature,
makes `verifyProfileCard` fail with the uniform invalid-card error, so no
field of an unverified card is ever returned. -/
theorem C5_profile_card_tamper (account : AccountSettings)
    (hkey : account.signingKeyPair.publicKey
      = ecdsaPublicOf account.signingKeyPair.privateKey) :
    verifyProfileCard (createProfileCard account)
      = .ok { userId := account.userId, username := account.username,
              avatarUrl := account.avatarUrl, status := account.status } ∧
    (∀ i v, i < (createProfileCard account).data.length →
      v ≠ (createProfileCard account).data.getD i 0 →
      verifyProfileCard { createProfileCard account with
        data := (createProfileCard account).data.set i v }
        = .error invalidCardMessage) ∧
    (∀ pk, pk ≠ (createProfileCard account).publicKey →
      verifyProfileCard { createProfileCard account with publicKey := pk }
        = .error invalidCardMessage) := by
  refine ⟨?_, ?_, ?_⟩
  · simp [createProfileCard, verifyProfileCard, ecdsaVerify, ecdsaSign, hkey,
      codec_dec_enc]
  · intro i v hi hv
    have hvE : v ≠ (createProfileCard account).data[i] := by
      rwa [listGetD_eq _ _ hi] at hv
    have hne : (createProfileCard account).data.set i v
        ≠ (createProfileCard account).data := set_ne_of_ne hi hvE
    simp only [createProfileCard] at hne ⊢
    simp [verifyProfileCard, ecdsaVerify, ecdsaSign, hne]
    intro h1 h2
    exact absurd h2.symm hne
  · intro pk hpk
    simp only [createProfileCard] at hpk ⊢
    rw [hkey] at hpk
    simp [verifyProfileCard, ecdsaVerify, ecdsaSign]
    intro hcon
    exact absurd hcon.symm hpk
    -- signature's signer key equals the genuine public key, not pk

/-- Witness for C5: verifying a freshly created card of a concrete account
returns exactly its public profile fields. -/
theorem C5_profile_card_tamper_witness :
    verifyProfileCard (createProfileCard sampleAccount)
      = .ok { userId := "u1", username := "alice", avatarUrl := "",
              status := "hola" } :=
  (C5_profile_card_tamper sampleAccount rfl).1

/-!
## Claims C10, C9, C3, C7: the session/vault lifecycle
-/

/-- Claim C10: Device-scoped quick-access cache preservation — for every
decrypted bundle, `loadDataBundle` forces the resulting session settings'
`storage.quickAccessVault` to the value already present on this device,
discards whatever `quickAccessVault` value was carried inside the bundle
(the result is unchanged under replacing it), and never touches the
device's stored quick-access cache. -/
theorem C10_device_cache_preserved (s : AppState) (bundle : SweFileBundle)
    (password : String) :
    (loadDataBundle s bundle password).settings.storage.quickAccessVault
      = s.settings.storage.quickAccessVault ∧
    (loadDataBundle s bundle password).localStorage.quickAccessVault
      = s.localStorage.quickAccessVault ∧
    (∀ v, loadDataBundle s
        { bundle with settings := { bundle.settings with storage :=
            { bundle.settings.storage with quickAccessVault := v } } } password
      = loadDataBundle s bundle password) :=
  ⟨rfl, rfl, fun _ => rfl⟩

/-- Claim C9: Legacy-decline atomicity — when a decrypted bundle with a
version older than `DATA_VERSION` (or missing, i.e. falsy) triggers the
compatibility-mode confirmation and the user declines, the load aborts with
zero state mutation: stories, presets, universes, settings, the session
password, the quick-access cache and its metadata are all unchanged, and
the application remains logged out. -/
theorem C9_legacy_decline_atomic (s : AppState) (buf : List Nat) (P : String)
    (bundle : SweFileBundle)
    (hdec : decryptFromFile buf P = .ok bundle)
    (hver : bundle.version = 0 ∨ bundle.version < DATA_VERSION)
    (hview : s.view = .login) :
    (decryptAndLoadStep s buf P).modalContent
      = some (.legacyVersion bundle P) ∧
    (legacyModalCancel (decryptAndLoadStep s buf P)).stories = s.stories ∧
    (legacyModalCancel (decryptAndLoadStep s buf P)).presets = s.presets ∧
    (legacyModalCancel (decryptAndLoadStep s buf P)).universes = s.universes ∧
    (legacyModalCancel (decryptAndLoadStep s buf P)).settings = s.settings ∧
    (legacyModalCancel (decryptAndLoadStep s buf P)).sessionPassword
      = s.sessionPassword ∧
    (legacyModalCancel (decryptAndLoadStep s buf P)).localStorage.quickAccessVault
      = s.localStorage.quickAccessVault ∧
    (legacyModalCancel (decryptAndLoadStep s buf P)).localStorage.meta
      = s.localStorage.meta ∧
    (legacyModalCancel (decryptAndLoadStep s buf P)).quickAccessMeta
      = s.quickAccessMeta ∧
    (legacyModalCancel (decryptAndLoadStep s buf P)).isGuest = s.isGuest ∧
    (legacyModalCancel (decryptAndLoadStep s buf P)).isLegacyMode
      = s.isLegacyMode ∧
    (legacyModalCancel (decryptAndLoadStep s buf P)).view = .login ∧
    (legacyModalCancel (decryptAndLoadStep s buf P)).modalContent = none ∧
    (legacyModalCancel (decryptAndLoadStep s buf P)).isLoading = false := by
  have hstep : decryptAndLoadStep s buf P =
      { s with isLoading := true, loadingMessage := "Desbloqueando bóveda...",
               error := none,
               modalContent := some (.legacyVersion bundle P) } := by
    unfold decryptAndLoadStep
    rw [hdec]
    simp only [if_pos hver]
  rw [hstep]
  refine ⟨rfl, rfl, rfl, rfl, rfl, rfl, rfl, rfl, rfl, rfl, rfl, ?_, rfl, rfl⟩
  simpa [legacyModalCancel] using hview

set_option maxRecDepth 1000000 in
/-- Witness for C9: a concrete old-version bundle triggers the legacy
modal. -/
theorem C9_legacy_decline_atomic_witness :
    (decryptAndLoadStep sampleLoggedOutState
        (encryptForFile sampleLegacyBundle "CorrectHorse1" sampleEntropy)
        "CorrectHorse1").modalContent
      = some (.legacyVersion sampleLegacyBundle "CorrectHorse1") :=
  (C9_legacy_decline_atomic sampleLoggedOutState
    (encryptForFile sampleLegacyBundle "CorrectHorse1" sampleEntropy)
    "CorrectHorse1" sampleLegacyBundle (by decide) (by decide) rfl).1

set_option maxRecDepth 1000000 in
/-- Counterexample to claim C3 as stated: a bundle whose version (8) is
greater than `DATA_VERSION` (7) is not rejected — `decryptAndLoad` loads it
fully into the session (home view, session password set, stories installed,
no error, no legacy prompt). -/
theorem C3_forward_version_counterexample :
    DATA_VERSION < sampleForwardBundle.version ∧
    (decryptAndLoadStep sampleLoggedOutState
        (encryptForFile sampleForwardBundle "CorrectHorse1" sampleEntropy)
        "CorrectHorse1").view = View.home ∧
    (decryptAndLoadStep sampleLoggedOutState
        (encryptForFile sampleForwardBundle "CorrectHorse1" sampleEntropy)
        "CorrectHorse1").sessionPassword = some "CorrectHorse1" ∧
    (decryptAndLoadStep sampleLoggedOutState
        (encryptForFile sampleForwardBundle "CorrectHorse1" sampleEntropy)
        "CorrectHorse1").stories = sampleForwardBundle.stories ∧
    (decryptAndLoadStep sampleLoggedOutState
        (encryptForFile sampleForwardBundle "CorrectHorse1" sampleEntropy)
        "CorrectHorse1").error = none := by
  refine ⟨by decide, by decide, by decide, by decide, by decide⟩

/-- Claim C3 (amended): when a bundle decrypts successfully and its version
is greater than `DATA_VERSION`, the load does not fail closed — the version
gate only distinguishes `version` falsy-or-less-than-`DATA_VERSION` (legacy
prompt) from everything else, so a forward-version bundle is loaded fully
into the session exactly like a current-version one. -/
theorem C3_forward_version_loaded (s : AppState) (buf : List Nat) (P : String)
    (bundle : SweFileBundle)
    (hdec : decryptFromFile buf P = .ok bundle)
    (hver : DATA_VERSION < bundle.version) :
    (decryptAndLoadStep s buf P).view = View.home ∧
    (decryptAndLoadStep s buf P).stories = bundle.stories ∧
    (decryptAndLoadStep s buf P).presets = bundle.presets ∧
    (decryptAndLoadStep s buf P).universes = bundle.universes ∧
    (decryptAndLoadStep s buf P).sessionPassword = some P ∧
    (decryptAndLoadStep s buf P).isLegacyMode = false ∧
    (decryptAndLoadStep s buf P).error = none ∧
    (decryptAndLoadStep s buf P).isLoading = false := by
  have hcond : ¬(bundle.version = 0 ∨ bundle.version < DATA_VERSION) := by
    rintro (h0 | hlt)
    · rw [h0] at hver
      exact absurd hver (by decide)
    · exact absurd hver (lt_asymm hlt)
  unfold decryptAndLoadStep
  rw [hdec]
  simp only [if_neg hcond]
  by_cases hqa : s.settings.storage.quickAccessVault = none <;>
    simp [hqa, loadDataBundle]

set_option maxRecDepth 1000000 in
/-- Witness for the amended C3 at a concrete forward-version bundle. -/
theorem C3_forward_version_loaded_witness :
    (decryptAndLoadStep sampleLoggedOutState
        (encryptForFile sampleForwardBundle "CorrectHorse1" sampleEntropy)
        "CorrectHorse1").view = View.home :=
  (C3_forward_version_loaded sampleLoggedOutState
    (encryptForFile sampleForwardBundle "CorrectHorse1" sampleEntropy)
    "CorrectHorse1" sampleForwardBundle (by decide) (by decide)).1

/-- Claim C7: Password-reset cache replacement — a successful password
reset re-encrypts the current in-memory bundle under the new password,
replaces the stored quick-access vault (both the localStorage entry and the
session settings copy) with that new ciphertext, and sets the session
password to the new password; afterwards the cached quick-access vault
decrypts with the new password to the re-sealed bundle and fails uniformly
with any other (in particular the old) password. -/
theorem C7_reset_cache_replacement (s : AppState) (newPassword : String)
    (e : Entropy) (hs : e.salt.length = 16) (hiv : e.iv.length = 12) :
    (handlePasswordRecovery s newPassword e).sessionPassword
      = some newPassword ∧
    (handlePasswordRecovery s newPassword e).localStorage.quickAccessVault
      = some (arrayBufferToBase64
          (encryptForFile (currentBundle s) newPassword e)) ∧
    (handlePasswordRecovery s newPassword e).settings.storage.quickAccessVault
      = some (arrayBufferToBase64
          (encryptForFile (currentBundle s) newPassword e)) ∧
    decryptFromFile (base64ToArrayBuffer (arrayBufferToBase64
        (encryptForFile (currentBundle s) newPassword e))) newPassword
      = .ok (currentBundle s) ∧
    (∀ p, p ≠ newPassword →
      decryptFromFile (base64ToArrayBuffer (arrayBufferToBase64
          (encryptForFile (currentBundle s) newPassword e))) p
        = .error decryptionFailedMessage) := by
  refine ⟨rfl, rfl, rfl, ?_, ?_⟩
  · exact decrypt_encrypt_ok (currentBundle s) newPassword e hs hiv
  · intro p hp
    exact decrypt_encrypt_wrong_password (currentBundle s) newPassword e
      hs hiv p hp

/-- Witness for C7: after a concrete reset, the stored quick-access vault
decrypts under the new password to the re-sealed session bundle. -/
theorem C7_reset_cache_replacement_witness :
    decryptFromFile (base64ToArrayBuffer (arrayBufferToBase64
        (encryptForFile (currentBundle sampleActiveState) "NewPass123"
          sampleEntropy))) "NewPass123"
      = .ok (currentBundle sampleActiveState) :=
  (C7_reset_cache_replacement sampleActiveState "NewPass123" sampleEntropy
    (by decide) (by decide)).2.2.2.1

/-!
## Helper lemmas and claim C6: the password-recovery state machine
-/

/-- `getD` at an in-range index is the element (any element type). -/
theorem getD_eq_of_lt {α : Type} (l : List α) (d : α) (i : Nat)
    (hi : i < l.length) : l.getD i d = l[i] := by
  simp [List.getD_eq_getElem?_getD, List.getElem?_eq_getElem hi]

/-- The `verifyAnswers` loop passes exactly when, for every configured
question, the hash of the submitted answer equals the stored hash. -/
theorem answersMatch_iff (qs : List SecurityQuestion) (answers : List String)
    (hlen : answers.length = qs.length) :
    answersMatch qs answers = true ↔
      ∀ i, i < qs.length →
        hashText (answers.getD i "")
          = (qs.getD i ⟨"", []⟩).answerHash := by
  unfold answersMatch
  rw [List.all_eq_true]
  constructor
  · intro h i hi
    have hia : i < answers.length := by omega
    have ha : answers[i]? = some answers[i] := List.getElem?_eq_getElem hia
    have hq : qs[i]? = some qs[i] := List.getElem?_eq_getElem hi
    have hzip : (answers.zip qs)[i]? = some (answers[i], qs[i]) :=
      List.getElem?_zip_eq_some.mpr ⟨ha, hq⟩
    have hmem : (answers[i], qs[i]) ∈ answers.zip qs :=
      List.mem_iff_getElem?.mpr ⟨i, hzip⟩
    have hp := h _ hmem
    rw [getD_eq_of_lt _ _ _ hia, getD_eq_of_lt _ _ _ hi]
    simpa using hp
  · intro h x hx
    obtain ⟨i, hxi⟩ := List.mem_iff_getElem?.mp hx
    obtain ⟨ha, hq⟩ := List.getElem?_zip_eq_some.mp hxi
    obtain ⟨hia, ha2⟩ := List.getElem?_eq_some_iff.mp ha
    obtain ⟨hiq, hq2⟩ := List.getElem?_eq_some_iff.mp hq
    have hgoal := h i hiq
    rw [getD_eq_of_lt _ _ _ hia, getD_eq_of_lt _ _ _ hiq, ha2, hq2] at hgoal
    simpa using hgoal

/-- If a single event moves the machine to the Reset step from elsewhere,
it was a `submitAnswers` at the Questions step whose answers all passed. -/
theorem recoveryStep_step2 (qs : List SecurityQuestion) (st : RecoveryState)
    (ev : RecoveryEvent) (hst : st.step ≠ 2)
    (h2 : (recoveryStep qs st ev).1.step = 2) :
    st.step = 1 ∧ ev = .submitAnswers ∧ st.answers.length = qs.length ∧
    answersMatch qs st.answers = true := by
  cases ev with
  | proceedToQuestions =>
    by_cases h0 : st.step = 0
    · simp [recoveryStep, h0] at h2
    · simp [recoveryStep, h0] at h2
      exact absurd h2 hst
  | editAnswer i v =>
    by_cases h1 : st.step = 1
    · simp [recoveryStep, h1] at h2
    · simp [recoveryStep, h1] at h2
      exact absurd h2 hst
  | submitAnswers =>
    by_cases h1 : st.step = 1
    · by_cases hlen : st.answers.length = qs.length
      · by_cases hmatch : answersMatch qs st.answers = true
        · exact ⟨h1, rfl, hlen, hmatch⟩
        · simp [recoveryStep, h1, hlen, hmatch] at h2
      · simp [recoveryStep, h1, hlen] at h2
    · simp [recoveryStep, h1] at h2
      exact absurd h2 hst
  | editNewPassword v =>
    by_cases h1 : st.step = 2
    · exact absurd h1 hst
    · simp [recoveryStep, h1] at h2
  | editConfirmPassword v =>
    by_cases h1 : st.step = 2
    · exact absurd h1 hst
    · simp [recoveryStep, h1] at h2

/-- Taking at most the left part of a concatenation ignores the last
element. -/
theorem take_concat_of_le {α : Type} (as : List α) (a : α) (k : Nat)
    (hk : k ≤ as.length) : (as ++ [a]).take k = as.take k := by
  induction as generalizing k with
  | nil =>
    have : k = 0 := by simpa using hk
    simp [this]
  | cons x xs ih =>
    cases k with
    | zero => simp
    | succ k2 =>
      simp only [List.cons_append, List.take_succ_cons]
      rw [ih k2 (by simpa using hk)]

/-- Claim C6: Recovery sequencing — in the recovery state machine
(0 = Hint, 1 = Questions, 2 = Reset), (1) a single event reaches the Reset
step from elsewhere exactly when it is `submitAnswers` at the Questions
step and, for every configured security question, the hash of the submitted
answer equals the stored `answerHash`; (2) if any single answer's hash
comparison fails, the whole attempt is rejected with the one generic
message — carrying no indication of which question was wrong — and the
state (including the step) is unchanged; (3) along any event trace from the
initial state, reaching Reset requires a `submitAnswers` at the Questions
step whose answers all passed. -/
theorem C6_recovery_sequencing (qs : List SecurityQuestion) :
    (∀ st ev, st.step ≠ 2 →
      ((recoveryStep qs st ev).1.step = 2 ↔
        (st.step = 1 ∧ ev = RecoveryEvent.submitAnswers ∧
          st.answers.length = qs.length ∧
          ∀ i, i < qs.length →
            hashText (st.answers.getD i "")
              = (qs.getD i ⟨"", []⟩).answerHash))) ∧
    (∀ st, st.step = 1 → st.answers.length = qs.length →
      (∃ i, i < qs.length ∧
        hashText (st.answers.getD i "") ≠ (qs.getD i ⟨"", []⟩).answerHash) →
      recoveryStep qs st .submitAnswers = (st, some recoveryAlertMessage)) ∧
    (∀ evs, (runRecovery qs (initialRecoveryState qs) evs).step = 2 →
      ∃ k, k < evs.length ∧
        (runRecovery qs (initialRecoveryState qs) (evs.take k)).step = 1 ∧
        evs[k]? = some RecoveryEvent.submitAnswers ∧
        answersMatch qs
          (runRecovery qs (initialRecoveryState qs) (evs.take k)).answers
          = true) := by
  refine ⟨?_, ?_, ?_⟩
  · intro st ev hst
    constructor
    · intro h2
      obtain ⟨h1, hev, hlen, hmatch⟩ := recoveryStep_step2 qs st ev hst h2
      exact ⟨h1, hev, hlen, (answersMatch_iff qs st.answers hlen).mp hmatch⟩
    · rintro ⟨h1, rfl, hlen, hpt⟩
      have hmatch : answersMatch qs st.answers = true :=
        (answersMatch_iff qs st.answers hlen).mpr hpt
      simp [recoveryStep, h1, hlen, hmatch]
  · intro st h1 hlen hbad
    have hmatch : answersMatch qs st.answers = false := by
      rcases hfb : answersMatch qs st.answers with _ | _
      · rfl
      · obtain ⟨i, hi, hne⟩ := hbad
        exact absurd ((answersMatch_iff qs st.answers hlen).mp hfb i hi) hne
    simp [recoveryStep, h1, hlen, hmatch]
  · intro evs
    induction evs using List.reverseRecOn with
    | nil =>
      intro h2
      simp [runRecovery, initialRecoveryState] at h2
    | append_singleton as a ih =>
      intro h2
      have hconcat : runRecovery qs (initialRecoveryState qs) (as ++ [a])
          = (recoveryStep qs (runRecovery qs (initialRecoveryState qs) as) a).1 := by
        simp [runRecovery]
      rw [hconcat] at h2
      by_cases hpre : (runRecovery qs (initialRecoveryState qs) as).step = 2
      · obtain ⟨k, hk, hks, hke, hkm⟩ := ih hpre
        refine ⟨k, ?_, ?_, ?_, ?_⟩
        · simp only [List.length_append, List.length_cons, List.length_nil]
          omega
        · rwa [take_concat_of_le as a k (by omega)]
        · rwa [List.getElem?_append_left (by omega)]
        · rwa [take_concat_of_le as a k (by omega)]
      · obtain ⟨h1, hev, hlen, hmatch⟩ :=
          recoveryStep_step2 qs _ a hpre h2
        refine ⟨as.length, ?_, ?_, ?_, ?_⟩
        · simp
        · rwa [take_concat_of_le as a as.length (by omega), List.take_length]
        · rw [List.getElem?_concat_length, hev]
        · rwa [take_concat_of_le as a as.length (by omega), List.take_length]

/-- Witness for C6: a concrete wrong answer is rejected generically with
the state unchanged. -/
theorem C6_recovery_sequencing_witness :
    recoveryStep sampleSecurityQuestions
      ⟨1, ["wrong", "paris"], "", ""⟩ .submitAnswers
      = (⟨1, ["wrong", "paris"], "", ""⟩, some recoveryAlertMessage) :=
  (C6_recovery_sequencing sampleSecurityQuestions).2.1
    ⟨1, ["wrong", "paris"], "", ""⟩ rfl (by decide)
    ⟨0, by decide, by decide⟩

end Weaver
